import Mathlib

/-!
# Comms.js : signalling and registry layer

A shallow embedding of `src/Comms.js` (class `Comms`, class `RemoteData`, and the
parts of `LocalData` the signalling code reads).

Conventions of the embedding

* `signalTypes`, `messageTypes` and `remotes` are plain objects made by `{}`
  and used as dictionaries.  A `Dict` keeps the own properties and the object
  that an assignment to `__proto__` installed as prototype, if any; reads go
  through the prototype chain (`dictRead`), `d[k] = v` is `dictSet`, and
  `d.hasOwnProperty(k)` is itself a property lookup on `d` (`hasOwnProperty`).
  `Object.prototype` is the standard one.
* `this.on` is the events object the application passes to the constructor: a
  plain object whose own properties are functions (the documented type of the
  parameter).  An application function is named by a number; calling it is
  recorded in the trace, changes nothing in the instance, does not raise, and
  returns the value the environment holds for it (`undefined` unless stated).
* A property that may hold `undefined` is a `JSVal`.  The properties
  `this.joined`, `this.id` and `this.pc` are read by the source but assigned
  by none of its methods; they are ordinary fields here, `undefined` after the
  constructor, so that the guards of the source are transcribed as written.
* Calls that leave the class (relay, peer connection, data channel, DOM,
  console, application callbacks, built-in functions) are appended to
  `World.trace`.
* A method returns an `Outcome`: the world after the call and the exception
  that left the method, if any.  A thrown exception keeps the mutations made
  before it, as in JavaScript.
* Promise continuations (`.then(...)`) are queued in `World.microtasks` and run
  by `settle`.  An object captured by a callback is named by the key it was
  stored under.
-/

namespace CommsJs

/-! ## JavaScript values and errors -/

/-- The JavaScript values that occur in the identity and flag slots of the source. -/
inductive JSVal where
  | undefined
  | null
  | bool (b : Bool)
  | str (s : String)
  deriving DecidableEq, Repr

/-- Truthiness as tested by `if (v)`. -/
def JSVal.truthy : JSVal → Bool
  | .undefined => false
  | .null => false
  | .bool b => b
  | .str s => !(s == "")

/-- Exceptions the modelled code can raise; the text names the expression that raised.
`DynamicCodeError` is what the `Function` constructor raises on arguments that
are not source text: `SyntaxError`, or `EvalError` on a page that forbids
dynamic code. -/
inductive JSError where
  | TypeError (what : String)
  | ReferenceError (what : String)
  | InvalidStateError (what : String)
  | DynamicCodeError (what : String)
  deriving DecidableEq, Repr

/-- The constant `DEBUG` of the source (line 33). -/
def DEBUG : Bool := true

/-! ## Plain objects used as dictionaries -/

/-- The value of the own property `k` in a list of own properties. -/
def ownGet {β : Type} (l : List (String × β)) (k : String) : Option β :=
  match l with
  | [] => none
  | (k', v) :: rest => if k' = k then some v else ownGet rest k

/-- Writing the own property `k`: replaces its value, else adds the property last. -/
def ownSet {β : Type} (l : List (String × β)) (k : String) (v : β) : List (String × β) :=
  match l with
  | [] => [(k, v)]
  | (k', v') :: rest => if k' = k then (k, v) :: rest else (k', v') :: ownSet rest k v

/-- In-place mutation of the object held by the own property `k`. -/
def ownModify {β : Type} (l : List (String × β)) (k : String) (f : β → β) : List (String × β) :=
  match l with
  | [] => []
  | (k', v) :: rest => if k' = k then (k', f v) :: rest else (k', v) :: ownModify rest k f

/-- A plain object created by `{}`: its own properties, listed in the order they
were created (the order in which JavaScript enumerates them is not modelled),
and the object installed as its prototype by an assignment to `__proto__`
(`none` while the prototype is still `Object.prototype`). -/
structure Dict (β : Type) where
  own : List (String × β)
  proto : Option β
  deriving DecidableEq, Repr

/-- The object `{}`. -/
def Dict.empty {β : Type} : Dict β := { own := [], proto := none }

/-- The value of the own property `k`, if there is one. -/
def dictGet {β : Type} (d : Dict β) (k : String) : Option β := ownGet d.own k

/-- Whether `k` is an own property: what `Object.prototype.hasOwnProperty` answers. -/
def dictHas {β : Type} (d : Dict β) (k : String) : Bool := (dictGet d k).isSome

/-- The string-keyed properties of `Object.prototype`, `__proto__` apart. -/
def objectPrototypeNames : List String :=
  ["constructor", "__defineGetter__", "__defineSetter__", "hasOwnProperty",
   "__lookupGetter__", "__lookupSetter__", "isPrototypeOf", "propertyIsEnumerable",
   "toString", "valueOf", "toLocaleString"]

/-- The properties a `RemoteData` has or inherits below `Object.prototype`: the
eleven of `Object.defineProperties` (lines 148-191) and `constructor`. -/
def remoteDataNames : List String :=
  ["id", "videoElement", "audioElement", "micOn", "camOn", "name", "pc", "audioSender",
   "videoSender", "channel", "sdpDone", "constructor"]

/-- Those of them defined without `writable: true`: an object that inherits one
cannot be assigned a property of that name. -/
def remoteDataReadOnly : List String :=
  ["id", "videoElement", "audioElement", "name", "pc"]

/-- The properties a bound function has or inherits below `Object.prototype`. -/
def functionNames : List String :=
  ["length", "name", "arguments", "caller", "constructor", "apply", "bind", "call", "toString"]

/-- Those of them that reject assignment from an inheriting object: the two
read-only data properties and the two accessors whose setter raises. -/
def functionReadOnly : List String := ["length", "name", "arguments", "caller"]

/-- The names a read of `d` finds on the prototype chain; `names` lists the
properties of the kind of object stored in `d`. -/
def inheritedNames {β : Type} (names : List String) (d : Dict β) : List String :=
  "__proto__" :: ((if d.proto.isSome then names else []) ++ objectPrototypeNames)

/-- What the read `d[k]` finds. -/
inductive Read (β : Type) where
  | own (v : β)
  | proto (v : β)
  | objectPrototype
  | viaProto
  | builtin
  | undefined
  deriving DecidableEq, Repr

/-- The read `d[k]`: an own property; else for `__proto__` the prototype object
(`proto` when one was installed, else `Object.prototype` itself); else a
property of the installed prototype (`viaProto`); else a function of
`Object.prototype` (`builtin`); else `undefined`. -/
def dictRead {β : Type} (names : List String) (d : Dict β) (k : String) : Read β :=
  match dictGet d k with
  | some v => Read.own v
  | none =>
    if k = "__proto__" then
      match d.proto with
      | some p => Read.proto p
      | none => Read.objectPrototype
    else if d.proto.isSome && names.contains k then Read.viaProto
    else if objectPrototypeNames.contains k then Read.builtin
    else Read.undefined

/-- The assignment `d[k] = v` in strict code, `none` when it raises `TypeError`.
An own property is overwritten; otherwise `__proto__` reaches the setter of
`Object.prototype`, which installs `v` as prototype and adds no property; a
name the installed prototype holds read-only rejects the assignment; any
other name becomes a new own property. -/
def dictSet {β : Type} (readOnly : List String) (d : Dict β) (k : String) (v : β) :
    Option (Dict β) :=
  if dictHas d k then some { d with own := ownSet d.own k v }
  else if k = "__proto__" then some { d with proto := some v }
  else if d.proto.isSome && readOnly.contains k then none
  else some { d with own := ownSet d.own k v }

/-- In-place mutation of the object that was stored by `d[k] = v`. -/
def dictModify {β : Type} (d : Dict β) (k : String) (f : β → β) : Dict β :=
  if dictHas d k then { d with own := ownModify d.own k f }
  else if k = "__proto__" then { d with proto := d.proto.map f }
  else d

/-- The object that was stored by `d[k] = v`. -/
def dictResolve {β : Type} (d : Dict β) (k : String) : Option β :=
  match dictGet d k with
  | some v => some v
  | none => if k = "__proto__" then d.proto else none

/-! ## Data model -/

/-- The `readyState` of an `RTCDataChannel`; `ready` is the state named "open". -/
inductive ReadyState where
  | connecting
  | ready
  | closing
  | closed
  deriving DecidableEq, Repr

/-- An `RTCDataChannel`. -/
structure DataChannel where
  label : String
  readyState : ReadyState
  onmessage : Bool
  deriving DecidableEq, Repr

/-- An `RTCPeerConnection`, as far as the class touches it. -/
structure PeerConnection where
  remoteDescription : JSVal
  localDescription : JSVal
  candidates : List JSVal
  closed : Bool
  onicecandidate : Bool
  ontrack : Bool
  ondatachannel : Bool
  onnegotiationneeded : Bool
  deriving DecidableEq, Repr

/-- Class `RemoteData` (lines 127-193).  `videoParent` and `audioParent` are the
`parentNode` of the two elements, `none` for `null`. -/
structure RemoteData where
  id : String
  name : String
  videoElement : String
  audioElement : String
  videoParent : Option String
  audioParent : Option String
  micOn : Bool
  camOn : Bool
  pc : PeerConnection
  channel : Option DataChannel
  sdpDone : Bool
  deriving DecidableEq, Repr

/-- The fields of class `LocalData` (lines 56-124) read by the signalling code,
with the `id` that `droneInit` adds.  `video` is `none` for `null`. -/
structure LocalData where
  name : String
  id : JSVal
  micOn : Bool
  camOn : Bool
  video : Option String
  deriving DecidableEq, Repr

/-- The relay client made by `new ScaleDrone(key, ...)`: `clientId` is assigned by
the relay when the connection opens, `onOpen` records `drone.on("open", droneInit)`. -/
structure ScaleDrone where
  key : String
  name : String
  clientId : JSVal
  onOpen : Bool
  deriving DecidableEq, Repr

/-- The room handle returned by `drone.subscribe`. -/
structure Room where
  name : JSVal
  onMemberJoin : Bool
  onMemberLeave : Bool
  deriving DecidableEq, Repr

/-- The content of a relay envelope or of a channel message. -/
inductive Content where
  | sdp (desc : JSVal) (intended : JSVal)
  | candidate (candidate : JSVal) (intended : JSVal)
  | value (v : JSVal)
  deriving DecidableEq, Repr

/-- Reading `data.intended`. -/
def Content.intended : Content → JSVal
  | .sdp _ i => i
  | .candidate _ i => i
  | .value _ => .undefined

/-- Reading `data.desc`. -/
def Content.desc : Content → JSVal
  | .sdp d _ => d
  | _ => .undefined

/-- Reading `data.candidate`. -/
def Content.cand : Content → JSVal
  | .candidate c _ => c
  | _ => .undefined

/-- An inbound relay message `{type, content}`. -/
structure Message where
  type : String
  content : Content
  deriving DecidableEq, Repr

/-- A relay member or sender: `{id, clientData: {name}}`. -/
structure Member where
  id : String
  name : String
  deriving DecidableEq, Repr

/-- The second argument of an event handler. -/
inductive EventData where
  | empty
  | elements (video audio : String)
  | member (id name : String)
  | other (v : JSVal)
  deriving DecidableEq, Repr

/-- A function stored in `signalTypes` or `messageTypes`: a method of the class
bound to the instance, or a function of the application. -/
inductive Fn where
  | receiveSdp
  | candidateReceived
  | app (n : Nat)
  deriving DecidableEq, Repr

/-- An argument passed to a callback. -/
inductive Arg where
  | comm
  | event (d : EventData)
  | content (c : Content)
  | client (c : Member)
  | name (s : String)
  deriving DecidableEq, Repr

/-- The object literal `ctn` of `sendMessage`. -/
structure ChannelMessage where
  id : JSVal
  type : String
  content : Content
  deriving DecidableEq, Repr

/-- A member of a serialized object. -/
inductive JsonMember where
  | val (key : String) (v : JSVal)
  | content (key : String) (c : Content)
  deriving DecidableEq, Repr

/-- The text `JSON.stringify(ctn)`, given by its members in order; a property
whose value is `undefined` is left out, as `JSON.stringify` does. -/
def JSONstringify (ctn : ChannelMessage) : List JsonMember :=
  (if ctn.id = JSVal.undefined then [] else [JsonMember.val "id" ctn.id])
    ++ [JsonMember.val "type" (JSVal.str ctn.type)]
    ++ (if ctn.content = Content.value JSVal.undefined then []
        else [JsonMember.content "content" ctn.content])

/-- Calls that leave the class.  `call` is a call of a stored function,
`callBuiltin` a call of a built-in function found on the prototype chain. -/
inductive Effect where
  | publish (room : JSVal) (type : String) (content : Content)
  | subscribe (room : JSVal)
  | consoleWarn (msg : String)
  | consoleLog (v : JSVal)
  | call (f : Fn) (args : List Arg)
  | callBuiltin (name : String) (args : List Arg)
  | newRemoteData (id : String) (makeChannel : Bool)
  | removeChild (element : String)
  | channelSend (remote : String) (data : List JsonMember)
  | channelClose (remote : String)
  | pcClose (remote : String)
  | setRemoteDescription (remote : String) (desc : JSVal)
  | setLocalDescription (remote : String) (desc : JSVal)
  | createAnswer (remote : String)
  | createOffer (remote : String)
  | addIceCandidate (remote : String) (candidate : JSVal)
  deriving DecidableEq, Repr

/-- A pending promise continuation. -/
inductive Task where
  | remoteDescriptionSet (remote : String) (desc : JSVal) (offerer : Bool)
  | answerCreated (remote : String)
  | offerCreated (remote : String)
  | localDescriptionSet (remote : String) (desc : JSVal)
  deriving DecidableEq, Repr

/-- The instance state of class `Comms`.  Two properties are renamed because their
names are reserved words here: `this.on` is `events` (the name of the constructor
parameter it is set from), given by its own properties, and `this.local` is
`local_`. -/
structure Comms where
  signalTypes : Dict Fn
  messageTypes : Dict Fn
  remotes : Dict RemoteData
  events : List (String × Nat)
  local_ : LocalData
  queued : Option (List JSVal)
  drone : Option ScaleDrone
  roomCode : JSVal
  room : Option Room
  noVideoStream : Option String
  joined : JSVal
  id : JSVal
  pc : Option PeerConnection
  deriving DecidableEq, Repr

/-- The instance together with its environment: the trace of outside calls, the
pending continuations, whether the page declares a global variable named
`remote` (the module itself declares none), and the values application
functions return (`undefined` for a function not listed). -/
structure World where
  comm : Comms
  trace : List Effect
  microtasks : List Task
  remoteDeclared : Bool
  results : List (Nat × JSVal)
  deriving DecidableEq, Repr

/-- The result of running a method. -/
structure Outcome where
  world : World
  thrown : Option JSError
  deriving DecidableEq, Repr

/-- Append one outside call to the trace. -/
def World.log (w : World) (e : Effect) : World :=
  { w with trace := w.trace ++ [e] }

/-- Queue a promise continuation. -/
def World.defer (w : World) (t : Task) : World :=
  { w with microtasks := w.microtasks ++ [t] }

/-- Normal return. -/
def World.done (w : World) : Outcome := ⟨w, none⟩

/-- Abrupt return. -/
def World.throw (w : World) (e : JSError) : Outcome := ⟨w, some e⟩

/-- Sequencing of two statements: the second runs only if the first returned normally. -/
def Outcome.andThen (o : Outcome) (k : World → Outcome) : Outcome :=
  match o.thrown with
  | none => k o.world
  | some _ => o

/-- Replace the `remotes` dictionary of the instance. -/
def World.setRemotes (w : World) (rs : Dict RemoteData) : World :=
  { w with comm := { w.comm with remotes := rs } }

/-- The value listed for the application function `fn`, `undefined` if none is. -/
def resultOf (l : List (Nat × JSVal)) (fn : Nat) : JSVal :=
  match l with
  | [] => JSVal.undefined
  | (n, v) :: rest => if n = fn then v else resultOf rest fn

/-- The value the application function `fn` returns. -/
def World.appResult (w : World) (fn : Nat) : JSVal := resultOf w.results fn

/-! ## Built-in functions reached through the prototype chain -/

/-- A stored function called without arguments (by `toLocaleString`, as
`this.toString()`): the two methods of the class raise when they read
`data.intended` of `undefined`, `candidateReceived` after its debug statement. -/
def invokeBare (w : World) (f : Fn) : Outcome :=
  let w1 := w.log (Effect.call f [])
  match f with
  | Fn.receiveSdp => w1.throw (JSError.TypeError "data is undefined")
  | Fn.candidateReceived =>
    if DEBUG then
      match w1.comm.pc with
      | none => w1.throw (JSError.TypeError "this.pc is undefined")
      | some pc =>
        (w1.log (Effect.consoleLog pc.remoteDescription)).throw
          (JSError.TypeError "data is undefined")
    else w1.throw (JSError.TypeError "data is undefined")
  | Fn.app _ => w1.done

/-- A function of `Object.prototype` called as a method of a dictionary with two
or three arguments of which the second is an object that is not callable.
`__defineGetter__` and `__defineSetter__` raise on that argument;
`toLocaleString` calls `this.toString()`, which is the own property
`toString` of the dictionary if it has one (`ownToString`), else
`Function.prototype.toString` when a function was installed as prototype
(it raises on a receiver that is not a function), else the built-in; the
others return. -/
def callObjectPrototype (w : World) (name : String) (args : List Arg)
    (ownToString : Option Fn) (protoIsFunction : Bool) : Outcome :=
  let w1 := w.log (Effect.callBuiltin name args)
  if name = "__defineGetter__" ∨ name = "__defineSetter__" then
    w1.throw (JSError.TypeError "the accessor function is not callable")
  else if name = "toLocaleString" then
    match ownToString with
    | some f => invokeBare w1 f
    | none =>
      if protoIsFunction then
        w1.throw (JSError.TypeError "Function.prototype.toString requires a function")
      else (w1.log (Effect.callBuiltin "toString" [])).done
  else w1.done

/-! ## The class -/

/-- The constructor of `Comms` (lines 216-240) with the `LocalData` it creates;
`events` lists the own properties of the events object. -/
def constructor (events : List (String × Nat)) : Comms :=
  { signalTypes := Dict.empty
    messageTypes := Dict.empty
    remotes := Dict.empty
    events := events
    local_ := { name := "NULL", id := JSVal.undefined, micOn := false, camOn := false, video := none }
    queued := none
    drone := none
    roomCode := JSVal.undefined
    room := none
    noVideoStream := none
    joined := JSVal.undefined
    id := JSVal.undefined
    pc := none }

/-- A page that has just run `new Comms(localVideo, noVideoImage, events)`. -/
def boot (events : List (String × Nat)) : World :=
  { comm := constructor events, trace := [], microtasks := [], remoteDeclared := false,
    results := [] }

/-- The else branch of `callEvent` (lines 353-355). -/
def warnUndefined (w : World) (name : String) : Outcome :=
  if DEBUG then (w.log (Effect.consoleWarn ("Event: " ++ name ++ " is not defined!"))).done
  else w.done

/-- The call `this.on[name](this, eventData)` (line 352). -/
def callStored (w : World) (name : String) (eventData : EventData) : Outcome :=
  match ownGet w.comm.events name with
  | some h => (w.log (Effect.call (Fn.app h) [Arg.comm, Arg.event eventData])).done
  | none =>
    if name ≠ "__proto__" ∧ objectPrototypeNames.contains name then
      callObjectPrototype w name [Arg.comm, Arg.event eventData]
        ((ownGet w.comm.events "toString").map Fn.app) false
    else w.throw (JSError.TypeError "this.on[name] is not a function")

/-- Method `callEvent` (lines 350-356).  The test `this.on.hasOwnProperty(name)`
looks `hasOwnProperty` up on the events object: an own property of that name
is called in place of the built-in test, and its result decides. -/
def callEvent (w : World) (name : String) (eventData : EventData) : Outcome :=
  match ownGet w.comm.events "hasOwnProperty" with
  | none =>
    if (ownGet w.comm.events name).isSome then callStored w name eventData
    else warnUndefined w name
  | some g =>
    let w1 := w.log (Effect.call (Fn.app g) [Arg.name name])
    if (w1.appResult g).truthy then callStored w1 name eventData
    else warnUndefined w1 name

/-- Method `registerSignalType` (lines 370-372). -/
def registerSignalType (w : World) (type : String) (func : Fn) : Outcome :=
  match dictSet functionReadOnly w.comm.signalTypes type func with
  | some d => World.done { w with comm := { w.comm with signalTypes := d } }
  | none => w.throw (JSError.TypeError "this.signalTypes[type] cannot be assigned")

/-- Method `registerMessageType` (lines 377-379). -/
def registerMessageType (w : World) (type : String) (func : Fn) : Outcome :=
  match dictSet functionReadOnly w.comm.messageTypes type func with
  | some d => World.done { w with comm := { w.comm with messageTypes := d } }
  | none => w.throw (JSError.TypeError "this.messageTypes[type] cannot be assigned")

/-- Method `init` (lines 252-290); the audio graph and the canvas are left out,
the stream captured from the canvas is the value "noVideoStream". -/
def init (w : World) : Outcome :=
  let w1 : World := { w with comm := { w.comm with queued := some [] } }
  (registerSignalType w1 "sdp" Fn.receiveSdp).andThen fun w2 =>
    (registerSignalType w2 "candidate" Fn.candidateReceived).andThen fun w3 =>
      World.done { w3 with comm := { w3.comm with
        noVideoStream := some "noVideoStream"
        local_ := { w3.comm.local_ with video := some "noVideoStream" } } }

/-- Method `join` (lines 304-315). -/
def join (w : World) (droneKey roomCode myName : String) : World :=
  { w with comm := { w.comm with
      local_ := { w.comm.local_ with name := myName }
      drone := some { key := droneKey, name := myName, clientId := JSVal.undefined, onOpen := true }
      roomCode := JSVal.str ("observable-" ++ roomCode) } }

/-- Method `droneInit` (lines 320-325). -/
def droneInit (w : World) : Outcome :=
  match w.comm.drone with
  | none => w.throw (JSError.TypeError "this.drone is undefined")
  | some d =>
    let w1 := w.log (Effect.subscribe w.comm.roomCode)
    World.done { w1 with comm := { w1.comm with
      room := some { name := w1.comm.roomCode, onMemberJoin := true, onMemberLeave := true }
      local_ := { w1.comm.local_ with id := d.clientId } } }

/-- The relay opens the connection: it assigns the client id and fires "open". -/
def relayOpen (w : World) (clientId : String) : Outcome :=
  match w.comm.drone with
  | none => w.done
  | some d =>
    let w1 : World := { w with comm := { w.comm with
      drone := some { d with clientId := JSVal.str clientId } } }
    if d.onOpen then droneInit w1 else w1.done

/-- Method `sendSignal` (lines 384-394). -/
def sendSignal (w : World) (type : String) (content : Content) : Outcome :=
  if w.comm.joined.truthy then
    match w.comm.drone with
    | none => w.throw (JSError.TypeError "this.drone is undefined")
    | some _ => (w.log (Effect.publish w.comm.roomCode type content)).done
  else w.done

/-- The call `channel.send(data)` of an `RTCDataChannel`: it raises
`InvalidStateError` unless the channel is open. -/
def DataChannel.send (ch : DataChannel) (w : World) (remote : String)
    (data : List JsonMember) : Outcome :=
  let w1 := w.log (Effect.channelSend remote data)
  if ch.readyState = ReadyState.ready then w1.done
  else w1.throw (JSError.InvalidStateError "RTCDataChannel.readyState is not open")

/-- Method `sendMessage` (lines 399-411). -/
def sendMessage (w : World) (type : String) (content : Content) (remote : RemoteData) : Outcome :=
  let ctn : ChannelMessage := { id := w.comm.id, type := type, content := content }
  let data := JSONstringify ctn
  match remote.channel with
  | some ch => ch.send w remote.id data
  | none => w.done

/-- The constructor of `RemoteData` (lines 128-192), once `localData.video` is known
to be a stream. -/
def RemoteData.create (id name : String) (make_channel : Bool) : RemoteData :=
  { id := id
    name := name
    videoElement := id ++ "-video-element"
    audioElement := id ++ "-audio-element"
    videoParent := none
    audioParent := none
    micOn := false
    camOn := false
    pc := { remoteDescription := JSVal.null, localDescription := JSVal.null, candidates := [],
            closed := false, onicecandidate := false, ontrack := false, ondatachannel := false,
            onnegotiationneeded := false }
    channel := if make_channel then
        some { label := "Data channel for " ++ id ++ " (Comms.js)",
               readyState := ReadyState.connecting, onmessage := false }
      else none
    sdpDone := false }

/-- The call `this.remotes.hasOwnProperty(id)` (lines 329 and 463), `none` when it
raises: `hasOwnProperty` is looked up on `remotes`, and an own property of
that name is a `RemoteData`, which cannot be called; otherwise the lookup
ends at the built-in test. -/
def hasOwnProperty (d : Dict RemoteData) (id : String) : Option Bool :=
  if dictHas d "hasOwnProperty" then none else some (dictHas d id)

/-- Method `init_remote` (lines 419-456).  `new RemoteData(...)` is recorded in the
trace; it raises a `TypeError` at `localData.video.getVideoTracks()` when
`local.video` is still `null` (before `init`).  When the assignment
`this.remotes[id] = new_remote` raises, the new object is stored nowhere. -/
def init_remote (w : World) (id name : String) (offerer : Bool) : Outcome :=
  let w1 := w.log (Effect.newRemoteData id offerer)
  match w1.comm.local_.video with
  | none => w1.throw (JSError.TypeError "localData.video is null")
  | some _ =>
    let new_remote := RemoteData.create id name offerer
    (callEvent w1 "makeRemoteElements"
        (EventData.elements new_remote.videoElement new_remote.audioElement)).andThen fun w2 =>
      let wired : RemoteData := { new_remote with pc := { new_remote.pc with
        onicecandidate := true, ontrack := true, ondatachannel := true } }
      match dictSet remoteDataReadOnly w2.comm.remotes id wired with
      | none => w2.throw (JSError.TypeError "this.remotes[id] cannot be assigned")
      | some rs =>
        let w3 := w2.setRemotes rs
        if offerer then
          (w3.setRemotes (dictModify w3.comm.remotes id fun r =>
            { r with pc := { r.pc with onnegotiationneeded := true } })).done
        else w3.done

/-- Method `memberJoinedRoom` (lines 327-331). -/
def memberJoinedRoom (w : World) (member : Member) : Outcome :=
  match hasOwnProperty w.comm.remotes member.id with
  | none => w.throw (JSError.TypeError "this.remotes.hasOwnProperty is not a function")
  | some known =>
    if !known then init_remote w member.id member.name true
    else w.done

/-- Method `memberLeftRoom` (lines 333-343).  The first statement assigns to the
undeclared identifier `remote`; module and class code is strict, so the
assignment raises a `ReferenceError` unless the page declares such a global.
The read `this.remotes[member.id]` yields a `RemoteData` for an own property
and for `__proto__` once one was installed as prototype (`dictResolve`);
anything else it can yield (`undefined`, `Object.prototype`, a built-in
function, a property of the installed prototype) has no `videoElement`. -/
def memberLeftRoom (w : World) (member : Member) : Outcome :=
  if !w.remoteDeclared then w.throw (JSError.ReferenceError "remote is not defined")
  else
    match dictResolve w.comm.remotes member.id with
    | none => w.throw (JSError.TypeError "remote.videoElement.parentNode cannot be read")
    | some remote =>
      match remote.videoParent with
      | none => w.throw (JSError.TypeError "remote.videoElement.parentNode is null")
      | some _ =>
        let w1 := (w.log (Effect.removeChild remote.videoElement)).setRemotes
          (dictModify w.comm.remotes member.id fun r => { r with videoParent := none })
        match remote.audioParent with
        | none => w1.throw (JSError.TypeError "remote.audioElement.parentNode is null")
        | some _ =>
          let w2 := (w1.log (Effect.removeChild remote.audioElement)).setRemotes
            (dictModify w1.comm.remotes member.id fun r => { r with audioParent := none })
          (callEvent w2 "memberLeft" (EventData.member remote.id remote.name)).andThen fun w3 =>
            match remote.channel with
            | none => w3.throw (JSError.TypeError "remote.channel is null")
            | some _ =>
              let w4 := (w3.log (Effect.channelClose remote.id)).setRemotes
                (dictModify w3.comm.remotes member.id fun r =>
                  { r with channel := r.channel.map fun c =>
                      { c with readyState := ReadyState.closing } })
              World.done ((w4.log (Effect.pcClose remote.id)).setRemotes
                (dictModify w4.comm.remotes member.id fun r =>
                  { r with pc := { r.pc with closed := true } }))

/-- Method `receiveSdp` (lines 460-475); `this` is the instance (bound in `init`).
The description `data.desc` is taken to be one that `RTCSessionDescription` and
`setRemoteDescription` accept; the promise is fulfilled by `settle`. -/
def receiveSdp (w : World) (data : Content) (client : Member) : Outcome :=
  if data.intended = w.comm.id then
    match hasOwnProperty w.comm.remotes client.id with
    | none => w.throw (JSError.TypeError "this.remotes.hasOwnProperty is not a function")
    | some offerer =>
      (if offerer then w.done else init_remote w client.id client.name false).andThen fun w1 =>
        World.done ((w1.log (Effect.setRemoteDescription client.id data.desc)).defer
          (Task.remoteDescriptionSet client.id data.desc offerer))
  else w.done

/-- Method `makeSdpAnswer` (lines 486-493), bound to `{comm, remote, offerer}`. -/
def makeSdpAnswer (w : World) (remote : String) (offerer : Bool) : Outcome :=
  if !offerer then
    World.done ((w.log (Effect.createAnswer remote)).defer (Task.answerCreated remote))
  else w.done

/-- Method `sdpSuccessful` (lines 477-484), bound to `{comm, remote}`: the bound
object has no `sendMessage`, so either media flag makes the call raise. -/
def sdpSuccessful (w : World) (remote : String) (description : JSVal) : Outcome :=
  let w1 := (w.log (Effect.setLocalDescription remote description)).defer
    (Task.localDescriptionSet remote description)
  if w1.comm.local_.micOn then
    w1.throw (JSError.TypeError "this.sendMessage is not a function")
  else if w1.comm.local_.camOn then
    w1.throw (JSError.TypeError "this.sendMessage is not a function")
  else w1.done

/-- Method `sendSdp` (lines 495-500), bound to `{comm, remote}`. -/
def sendSdp (w : World) (remote : String) : Outcome :=
  match dictResolve w.comm.remotes remote with
  | some r => sendSignal w "sdp" (Content.sdp r.pc.localDescription (JSVal.str r.id))
  | none => w.done

/-- Method `pcCandidate` (lines 504-511), bound to `{comm, remote}`. -/
def pcCandidate (w : World) (remote : String) (candidate : JSVal) : Outcome :=
  if candidate.truthy then
    sendSignal w "candidate" (Content.candidate candidate (JSVal.str remote))
  else w.done

/-- Method `candidateReceived` (lines 513-516); `this` is the instance (bound in `init`).
The read `this.remotes[client.id]` is as in `memberLeftRoom`: what is not a
`RemoteData` has no `pc`.  The candidate is taken to be one that
`RTCIceCandidate` and `addIceCandidate` accept. -/
def candidateReceived (w : World) (data : Content) (client : Member) : Outcome :=
  (if DEBUG then
    match w.comm.pc with
    | none => w.throw (JSError.TypeError "this.pc is undefined")
    | some pc => (w.log (Effect.consoleLog pc.remoteDescription)).done
   else w.done).andThen fun w1 =>
    if data.intended = w1.comm.id then
      match dictResolve w1.comm.remotes client.id with
      | none => w1.throw (JSError.TypeError "this.remotes[client.id].pc.addIceCandidate cannot be read")
      | some _ =>
        World.done ((w1.log (Effect.addIceCandidate client.id data.cand)).setRemotes
          (dictModify w1.comm.remotes client.id fun r =>
            { r with pc := { r.pc with candidates := r.pc.candidates ++ [data.cand] } }))
    else w1.done

/-- Calling a function stored in `signalTypes` with `(content, client, this)`:
the call is recorded, then a method of the class runs its body. -/
def invoke (w : World) (f : Fn) (content : Content) (client : Member) : Outcome :=
  let w1 := w.log (Effect.call f [Arg.content content, Arg.client client, Arg.comm])
  match f with
  | Fn.receiveSdp => receiveSdp w1 content client
  | Fn.candidateReceived => candidateReceived w1 content client
  | Fn.app _ => w1.done

/-- Method `roomDataReceived` (lines 413-415).  The read `this.signalTypes[message.type]`
goes through the prototype chain: a stored function is called (also the one
installed as prototype, read as `__proto__`); a function of
`Object.prototype` is called with the three arguments; what a function
installed as prototype lets inherit raises when called on the dictionary
(`constructor`, the `Function` constructor, cannot compile its arguments);
`Object.prototype` itself and `undefined` are not functions. -/
def roomDataReceived (w : World) (message : Message) (client : Member) : Outcome :=
  match w.comm.drone with
  | none => w.throw (JSError.TypeError "this.drone is undefined")
  | some d =>
    if JSVal.str client.id ≠ d.clientId then
      match dictRead functionNames w.comm.signalTypes message.type with
      | Read.own f => invoke w f message.content client
      | Read.proto f => invoke w f message.content client
      | Read.builtin =>
        callObjectPrototype w message.type
          [Arg.content message.content, Arg.client client, Arg.comm]
          (dictGet w.comm.signalTypes "toString") w.comm.signalTypes.proto.isSome
      | Read.viaProto =>
        if message.type = "constructor" then
          (w.log (Effect.callBuiltin "Function"
            [Arg.content message.content, Arg.client client, Arg.comm])).throw
            (JSError.DynamicCodeError "Function(message.content, client, this)")
        else w.throw (JSError.TypeError "this.signalTypes[message.type](...) is not callable here")
      | Read.objectPrototype =>
        w.throw (JSError.TypeError "this.signalTypes[message.type] is not a function")
      | Read.undefined =>
        w.throw (JSError.TypeError "this.signalTypes[message.type] is not a function")
    else w.done

/-- Method `pcChannelReceived` (lines 532-536), bound to `{comm, remote}`. -/
def pcChannelReceived (w : World) (remote : String) (channel : DataChannel) : World :=
  w.setRemotes (dictModify w.comm.remotes remote fun r =>
    { r with channel := some { channel with onmessage := true } })

/-- The handler installed on `onnegotiationneeded` by `init_remote` (lines 446-451). -/
def negotiationNeeded (w : World) (remote : String) : Outcome :=
  match dictResolve w.comm.remotes remote with
  | some r =>
    if r.pc.onnegotiationneeded then
      World.done ((w.log (Effect.createOffer remote)).defer (Task.offerCreated remote))
    else w.done
  | none => w.done

/-- The oldest pending promise is fulfilled and its continuation runs; `value` is
the description a `createAnswer` or `createOffer` promise resolves with. -/
def settle (w : World) (value : JSVal) : Outcome :=
  match w.microtasks with
  | [] => w.done
  | t :: rest =>
    let w1 : World := { w with microtasks := rest }
    match t with
    | Task.remoteDescriptionSet r d offerer =>
      makeSdpAnswer (w1.setRemotes (dictModify w1.comm.remotes r fun x =>
        { x with pc := { x.pc with remoteDescription := d } })) r offerer
    | Task.answerCreated r => sdpSuccessful w1 r value
    | Task.offerCreated r => sdpSuccessful w1 r value
    | Task.localDescriptionSet r d =>
      sendSdp (w1.setRemotes (dictModify w1.comm.remotes r fun x =>
        { x with pc := { x.pc with localDescription := d } })) r

/-- The application mounts the two elements of a remote (what the
`makeRemoteElements` handler of `example.js` does). -/
def mountElements (w : World) (remote parent : String) : World :=
  w.setRemotes (dictModify w.comm.remotes remote fun r =>
    { r with videoParent := some parent, audioParent := some parent })

/-- From now on the application function `fn` returns `value`. -/
def appReturns (w : World) (fn : Nat) (value : JSVal) : World :=
  { w with results := (fn, value) :: w.results }

/-! ## Runs -/

/-- One thing that can happen to an instance: a method call by the application, an
event delivered by the relay, the browser or a peer connection. -/
inductive Call where
  | init
  | join (droneKey roomCode myName : String)
  | relayOpen (clientId : String)
  | droneInit
  | memberJoinedRoom (member : Member)
  | memberLeftRoom (member : Member)
  | callEvent (name : String) (eventData : EventData)
  | registerSignalType (type : String) (func : Fn)
  | registerMessageType (type : String) (func : Fn)
  | sendSignal (type : String) (content : Content)
  | sendMessage (type : String) (content : Content) (remote : RemoteData)
  | roomDataReceived (message : Message) (client : Member)
  | receiveSdp (data : Content) (client : Member)
  | candidateReceived (data : Content) (client : Member)
  | pcCandidate (remote : String) (candidate : JSVal)
  | pcChannelReceived (remote : String) (channel : DataChannel)
  | negotiationNeeded (remote : String)
  | settle (value : JSVal)
  | mountElements (remote parent : String)
  | appReturns (fn : Nat) (value : JSVal)
  deriving DecidableEq, Repr

/-- Whether the call runs `droneInit`. -/
def Call.runsDroneInit : Call → Bool
  | .relayOpen _ => true
  | .droneInit => true
  | _ => false

/-- Run one call. -/
def step (w : World) : Call → Outcome
  | .init => init w
  | .join k r n => (join w k r n).done
  | .relayOpen c => relayOpen w c
  | .droneInit => droneInit w
  | .memberJoinedRoom m => memberJoinedRoom w m
  | .memberLeftRoom m => memberLeftRoom w m
  | .callEvent n d => callEvent w n d
  | .registerSignalType t f => registerSignalType w t f
  | .registerMessageType t f => registerMessageType w t f
  | .sendSignal t c => sendSignal w t c
  | .sendMessage t c r => sendMessage w t c r
  | .roomDataReceived m c => roomDataReceived w m c
  | .receiveSdp d c => receiveSdp w d c
  | .candidateReceived d c => candidateReceived w d c
  | .pcCandidate r c => pcCandidate w r c
  | .pcChannelReceived r c => (pcChannelReceived w r c).done
  | .negotiationNeeded r => negotiationNeeded w r
  | .settle v => settle w v
  | .mountElements r p => (mountElements w r p).done
  | .appReturns f v => (appReturns w f v).done

/-- Run a sequence of calls; an exception ends the call that raised it, not the page. -/
def run (calls : List Call) (w : World) : World :=
  match calls with
  | [] => w
  | c :: rest => run rest (step w c).world

/-! ## Measures and sample inputs -/

/-- Number of `drone.publish` calls in a trace. -/
def publishes (t : List Effect) : Nat :=
  (t.filter fun e => match e with
    | Effect.publish _ _ _ => true
    | _ => false).length

/-- Room setup has completed: the relay assigned a client id, the room is subscribed
under the room code, both membership handlers are registered and the local
identity is the assigned client id. -/
def setupComplete (w : World) : Bool :=
  match w.comm.drone, w.comm.room with
  | some d, some r =>
    r.onMemberJoin && r.onMemberLeave && decide (r.name = w.comm.roomCode)
      && decide (w.comm.local_.id = d.clientId)
      && (match d.clientId with
          | JSVal.str _ => true
          | _ => false)
  | _, _ => false

/-- Number of `new RemoteData(id, ...)` calls in a trace. -/
def constructed (id : String) (t : List Effect) : Nat :=
  (t.filter fun e => match e with
    | Effect.newRemoteData i _ => decide (i = id)
    | _ => false).length

/-- Number of `addIceCandidate` calls in a trace. -/
def candidatesApplied (t : List Effect) : Nat :=
  (t.filter fun e => match e with
    | Effect.addIceCandidate _ _ => true
    | _ => false).length

/-- Number of calls of stored functions in a trace. -/
def handlerCalls (t : List Effect) : Nat :=
  (t.filter fun e => match e with
    | Effect.call _ _ => true
    | _ => false).length

/-- Number of calls of the application function `h` in a trace. -/
def callsOf (h : Nat) (t : List Effect) : Nat :=
  (t.filter fun e => match e with
    | Effect.call (Fn.app n) _ => decide (n = h)
    | _ => false).length

/-- Number of `channel.send` calls in a trace. -/
def channelSends (t : List Effect) : Nat :=
  (t.filter fun e => match e with
    | Effect.channelSend _ _ => true
    | _ => false).length

/-- The events object has no own property named `hasOwnProperty`, so that
`this.on.hasOwnProperty` is the built-in test. -/
def plainEvents (w : World) : Bool := (ownGet w.comm.events "hasOwnProperty").isNone

/-- An identity other than the two names that change how `remotes` behaves as a
dictionary: `__proto__`, whose assignment installs a prototype, and
`hasOwnProperty`, whose entry would shadow the built-in test. -/
def plainKey (id : String) : Bool :=
  decide (id ≠ "__proto__") && decide (id ≠ "hasOwnProperty")

/-- The registry still has `Object.prototype` as prototype and no entry named
`hasOwnProperty`. -/
def plainRegistry (w : World) : Bool :=
  w.comm.remotes.proto.isNone && !(dictHas w.comm.remotes "hasOwnProperty")

/-- The outside call `callEvent` makes for `name` on a plain events object: the
registered handler with `(this, eventData)`, or the console warning when none
is registered. -/
def emitted (events : List (String × Nat)) (name : String) (eventData : EventData) : Effect :=
  match ownGet events name with
  | some h => Effect.call (Fn.app h) [Arg.comm, Arg.event eventData]
  | none => Effect.consoleWarn ("Event: " ++ name ++ " is not defined!")

/-- The record `init_remote` leaves in the registry: the new `RemoteData` with the
three connection handlers set, and `onnegotiationneeded` for an offerer. -/
def wiredRemote (id name : String) (offerer : Bool) : RemoteData :=
  { RemoteData.create id name offerer with
    pc := { (RemoteData.create id name offerer).pc with
      onicecandidate := true, ontrack := true, ondatachannel := true,
      onnegotiationneeded := offerer } }

/-- A first contact with a remote identity: a member-join notification or an
inbound sdp signal. -/
inductive Contact where
  | joined (member : Member)
  | sdp (data : Content) (client : Member)
  deriving DecidableEq, Repr

/-- The method call a contact stands for. -/
def Contact.toCall : Contact → Call
  | .joined m => Call.memberJoinedRoom m
  | .sdp d c => Call.receiveSdp d c

/-- The identity a contact is about. -/
def Contact.id : Contact → String
  | .joined m => m.id
  | .sdp _ c => c.id

/-- The identities that have a record. -/
def known (w : World) : List String := w.comm.remotes.own.map Prod.fst

/-- How the registry may evolve from `w` to `w'`: the local data, the events object
and the prototype of the registry are the same, no entry named
`hasOwnProperty` appeared, every record of `w` is still stored under its
identity, an identity gained at most one construction and only if it had no
record, and the identities stay pairwise distinct. -/
def Extends (w w' : World) : Prop :=
  w'.comm.local_ = w.comm.local_
    ∧ w'.comm.events = w.comm.events
    ∧ w'.comm.remotes.proto = w.comm.remotes.proto
    ∧ dictHas w'.comm.remotes "hasOwnProperty" = dictHas w.comm.remotes "hasOwnProperty"
    ∧ (∀ id r, dictGet w.comm.remotes id = some r → dictGet w'.comm.remotes id = some r)
    ∧ (∀ id, constructed id w'.trace + (if dictHas w'.comm.remotes id then 0 else 1)
        ≤ constructed id w.trace + (if dictHas w.comm.remotes id then 0 else 1))
    ∧ ((known w).Nodup → (known w').Nodup)

/-- Contacts used as a sample: "B" joins twice, "C" sends an sdp signal without a
recipient (the only kind that passes the guard of `receiveSdp`), then joins. -/
def demoContacts : List Contact :=
  [Contact.joined ⟨"B", "Bob"⟩, Contact.joined ⟨"B", "Bob"⟩,
   Contact.sdp (Content.sdp (JSVal.str "offer") JSVal.undefined) ⟨"C", "Cy"⟩,
   Contact.joined ⟨"C", "Cy"⟩]

/-- The events dictionary of `example.js`. -/
def demoEvents : List (String × Nat) := [("makeRemoteElements", 0)]

/-- An events object that also has an own property named `hasOwnProperty`. -/
def shadowEvents : List (String × Nat) := [("hasOwnProperty", 7), ("makeRemoteElements", 0)]

/-- An events object whose only own property is named `hasOwnProperty`. -/
def shadowOnly : List (String × Nat) := [("hasOwnProperty", 7)]

/-- The start of `example.js`: `init()`, then `join` on the button press. -/
def demoJoin : List Call := [Call.init, Call.join "Rrv8qPaCmE9Jkyg0" "Test Room" "Al"]

/-- The same page once the relay has opened the connection and assigned the id "A". -/
def demoSetup : List Call := demoJoin ++ [Call.relayOpen "A"]

/-- The same page once member "B" has joined and its elements are mounted. -/
def demoPeer : List Call :=
  demoSetup ++ [Call.memberJoinedRoom ⟨"B", "Bob"⟩, Call.mountElements "B" "body"]

/-- A page that joins without having called `init()`. -/
def joinWithoutInit : List Call :=
  [Call.join "Rrv8qPaCmE9Jkyg0" "Test Room" "Al", Call.relayOpen "A"]

/-- The three properties the source reads but never assigns. -/
def World.unassigned (w : World) : JSVal × JSVal × Option PeerConnection :=
  (w.comm.joined, w.comm.id, w.comm.pc)

/-! ## Basic facts -/

@[simp] theorem world_done (w : World) : w.done.world = w := rfl
@[simp] theorem world_throw (w : World) (e : JSError) : (w.throw e).world = w := rfl
@[simp] theorem thrown_done (w : World) : w.done.thrown = none := rfl
@[simp] theorem thrown_throw (w : World) (e : JSError) : (w.throw e).thrown = some e := rfl
@[simp] theorem comm_log (w : World) (e : Effect) : (w.log e).comm = w.comm := rfl
@[simp] theorem comm_defer (w : World) (t : Task) : (w.defer t).comm = w.comm := rfl
@[simp] theorem remotes_setRemotes (w : World) (rs : Dict RemoteData) :
    (w.setRemotes rs).comm.remotes = rs := rfl

@[simp] theorem unassigned_log (w : World) (e : Effect) :
    (w.log e).unassigned = w.unassigned := rfl
@[simp] theorem unassigned_defer (w : World) (t : Task) :
    (w.defer t).unassigned = w.unassigned := rfl
@[simp] theorem unassigned_setRemotes (w : World) (rs : Dict RemoteData) :
    (w.setRemotes rs).unassigned = w.unassigned := rfl

theorem unassigned_of_comm {w w' : World} (h : w'.comm = w.comm) :
    w'.unassigned = w.unassigned := by
  simp [World.unassigned, h]

theorem andThen_world_ind (o : Outcome) (k : World → Outcome) (P : World → Prop)
    (ho : P o.world) (hk : ∀ w, P w → P (k w).world) : P (o.andThen k).world := by
  unfold Outcome.andThen
  split
  · exact hk _ ho
  · exact ho

theorem unassigned_andThen (o : Outcome) (k : World → Outcome)
    (u : JSVal × JSVal × Option PeerConnection)
    (ho : o.world.unassigned = u) (hk : ∀ w, w.unassigned = u → (k w).world.unassigned = u) :
    (o.andThen k).world.unassigned = u :=
  andThen_world_ind o k (fun x => x.unassigned = u) ho hk

/-! ## Calls that only add to the trace -/

@[simp] theorem comm_invokeBare (w : World) (f : Fn) : (invokeBare w f).world.comm = w.comm := by
  unfold invokeBare
  cases f with
  | receiveSdp => rfl
  | candidateReceived =>
    simp only
    split
    · split <;> rfl
    · rfl
  | app n => rfl

@[simp] theorem comm_callObjectPrototype (w : World) (name : String) (args : List Arg)
    (t : Option Fn) (p : Bool) : (callObjectPrototype w name args t p).world.comm = w.comm := by
  unfold callObjectPrototype
  simp only
  split
  · rfl
  · split
    · split
      · simp
      · split <;> rfl
    · rfl

@[simp] theorem comm_warnUndefined (w : World) (name : String) :
    (warnUndefined w name).world.comm = w.comm := by
  unfold warnUndefined
  split <;> rfl

@[simp] theorem comm_callStored (w : World) (name : String) (eventData : EventData) :
    (callStored w name eventData).world.comm = w.comm := by
  unfold callStored
  split
  · rfl
  · split
    · simp
    · rfl

@[simp] theorem comm_callEvent (w : World) (name : String) (eventData : EventData) :
    (callEvent w name eventData).world.comm = w.comm := by
  unfold callEvent
  split
  · split <;> simp
  · simp only
    split <;> simp

@[simp] theorem comm_sendSignal (w : World) (t : String) (c : Content) :
    (sendSignal w t c).world.comm = w.comm := by
  unfold sendSignal
  split
  · split <;> rfl
  · rfl

@[simp] theorem comm_sendMessage (w : World) (t : String) (c : Content) (r : RemoteData) :
    (sendMessage w t c r).world.comm = w.comm := by
  unfold sendMessage DataChannel.send
  split
  · simp only
    split <;> rfl
  · rfl

/-! ## No method assigns `joined`, `id` or `pc` -/

@[simp] theorem unassigned_callEvent (w : World) (n : String) (d : EventData) :
    (callEvent w n d).world.unassigned = w.unassigned :=
  unassigned_of_comm (comm_callEvent w n d)

@[simp] theorem unassigned_sendSignal (w : World) (t : String) (c : Content) :
    (sendSignal w t c).world.unassigned = w.unassigned :=
  unassigned_of_comm (comm_sendSignal w t c)

@[simp] theorem unassigned_sendMessage (w : World) (t : String) (c : Content) (r : RemoteData) :
    (sendMessage w t c r).world.unassigned = w.unassigned :=
  unassigned_of_comm (comm_sendMessage w t c r)

@[simp] theorem unassigned_registerSignalType (w : World) (t : String) (f : Fn) :
    (registerSignalType w t f).world.unassigned = w.unassigned := by
  unfold registerSignalType
  split <;> rfl

@[simp] theorem unassigned_registerMessageType (w : World) (t : String) (f : Fn) :
    (registerMessageType w t f).world.unassigned = w.unassigned := by
  unfold registerMessageType
  split <;> rfl

@[simp] theorem unassigned_init (w : World) : (init w).world.unassigned = w.unassigned := by
  unfold init
  simp only
  apply unassigned_andThen
  · rw [unassigned_registerSignalType]; rfl
  · intro w2 h2
    apply unassigned_andThen
    · rw [unassigned_registerSignalType]; exact h2
    · intro w3 h3
      exact h3

@[simp] theorem unassigned_init_remote (w : World) (id name : String) (o : Bool) :
    (init_remote w id name o).world.unassigned = w.unassigned := by
  unfold init_remote
  simp only
  split
  · rfl
  · apply unassigned_andThen
    · simp
    · intro w2 h2
      split
      · exact h2
      · split <;> simp [h2]

@[simp] theorem unassigned_droneInit (w : World) :
    (droneInit w).world.unassigned = w.unassigned := by
  unfold droneInit
  split <;> rfl

@[simp] theorem unassigned_relayOpen (w : World) (c : String) :
    (relayOpen w c).world.unassigned = w.unassigned := by
  unfold relayOpen
  split
  · rfl
  · simp only
    split
    · rw [unassigned_droneInit]; rfl
    · rfl

@[simp] theorem unassigned_memberJoinedRoom (w : World) (m : Member) :
    (memberJoinedRoom w m).world.unassigned = w.unassigned := by
  unfold memberJoinedRoom
  split
  · rfl
  · split
    · simp
    · rfl

@[simp] theorem unassigned_memberLeftRoom (w : World) (m : Member) :
    (memberLeftRoom w m).world.unassigned = w.unassigned := by
  unfold memberLeftRoom
  split
  · rfl
  · split
    · rfl
    · split
      · rfl
      · simp only
        split
        · rfl
        · apply unassigned_andThen
          · simp
          · intro w3 h3
            split <;> simp [h3]

@[simp] theorem unassigned_receiveSdp (w : World) (d : Content) (c : Member) :
    (receiveSdp w d c).world.unassigned = w.unassigned := by
  unfold receiveSdp
  split
  · split
    · rfl
    · apply unassigned_andThen
      · split <;> simp
      · intro w1 h1
        simp [h1]
  · rfl

@[simp] theorem unassigned_candidateReceived (w : World) (d : Content) (c : Member) :
    (candidateReceived w d c).world.unassigned = w.unassigned := by
  unfold candidateReceived
  apply unassigned_andThen
  · split
    · split <;> rfl
    · rfl
  · intro w1 h1
    split
    · split <;> simp [h1]
    · simp [h1]

@[simp] theorem unassigned_invoke (w : World) (f : Fn) (d : Content) (c : Member) :
    (invoke w f d c).world.unassigned = w.unassigned := by
  unfold invoke
  cases f <;> simp

@[simp] theorem unassigned_roomDataReceived (w : World) (m : Message) (c : Member) :
    (roomDataReceived w m c).world.unassigned = w.unassigned := by
  unfold roomDataReceived
  split
  · rfl
  · split
    · split
      · simp
      · simp
      · exact unassigned_of_comm (comm_callObjectPrototype _ _ _ _ _)
      · split <;> rfl
      · rfl
      · rfl
    · rfl

@[simp] theorem unassigned_pcCandidate (w : World) (r : String) (c : JSVal) :
    (pcCandidate w r c).world.unassigned = w.unassigned := by
  unfold pcCandidate
  split <;> simp

@[simp] theorem unassigned_negotiationNeeded (w : World) (r : String) :
    (negotiationNeeded w r).world.unassigned = w.unassigned := by
  unfold negotiationNeeded
  split
  · split <;> simp
  · rfl

@[simp] theorem unassigned_makeSdpAnswer (w : World) (r : String) (o : Bool) :
    (makeSdpAnswer w r o).world.unassigned = w.unassigned := by
  unfold makeSdpAnswer
  split <;> simp

@[simp] theorem unassigned_sdpSuccessful (w : World) (r : String) (d : JSVal) :
    (sdpSuccessful w r d).world.unassigned = w.unassigned := by
  unfold sdpSuccessful
  simp only
  split
  · simp
  · split <;> simp

@[simp] theorem unassigned_sendSdp (w : World) (r : String) :
    (sendSdp w r).world.unassigned = w.unassigned := by
  unfold sendSdp
  split <;> simp

@[simp] theorem unassigned_settle (w : World) (v : JSVal) :
    (settle w v).world.unassigned = w.unassigned := by
  unfold settle
  split
  · rfl
  · simp only
    split <;> simp <;> rfl

/-- Every call leaves `joined`, `id` and `pc` as they were. -/
theorem unassigned_step (w : World) (c : Call) :
    (step w c).world.unassigned = w.unassigned := by
  cases c <;> simp [step] <;> rfl

/-- Along every run `joined`, `id` and `pc` keep their value. -/
theorem unassigned_run (calls : List Call) (w : World) :
    (run calls w).unassigned = w.unassigned := by
  induction calls generalizing w with
  | nil => rfl
  | cons c rest ih => simp [run, ih, unassigned_step]

/-- On every instance reached from the constructor `joined`, `id` and `pc` are unset. -/
theorem unassigned_reached (events : List (String × Nat)) (calls : List Call) :
    (run calls (boot events)).comm.joined = JSVal.undefined
      ∧ (run calls (boot events)).comm.id = JSVal.undefined
      ∧ (run calls (boot events)).comm.pc = none := by
  have h := unassigned_run calls (boot events)
  simp only [World.unassigned, Prod.mk.injEq] at h
  exact h

/-! ## Dictionaries -/

theorem ownGet_ownSet {β : Type} (l : List (String × β)) (k k' : String) (v : β) :
    ownGet (ownSet l k v) k' = if k = k' then some v else ownGet l k' := by
  induction l with
  | nil => simp [ownSet, ownGet]
  | cons p rest ih =>
    obtain ⟨a, b⟩ := p
    by_cases hak : a = k
    · subst hak
      by_cases hak' : a = k'
      · simp [ownSet, ownGet, hak']
      · simp [ownSet, ownGet, hak']
    · by_cases hak' : a = k'
      · subst hak'
        have hne : ¬ k = a := fun h => hak h.symm
        simp [ownSet, ownGet, hak, hne]
      · simp [ownSet, ownGet, hak, hak', ih]

theorem ownGet_ownModify {β : Type} (l : List (String × β)) (k k' : String) (f : β → β) :
    ownGet (ownModify l k f) k' = if k = k' then (ownGet l k').map f else ownGet l k' := by
  induction l with
  | nil => simp [ownModify, ownGet]
  | cons p rest ih =>
    obtain ⟨a, b⟩ := p
    by_cases hak : a = k
    · subst hak
      by_cases hak' : a = k'
      · simp [ownModify, ownGet, hak']
      · simp [ownModify, ownGet, hak']
    · by_cases hak' : a = k'
      · subst hak'
        have hne : ¬ k = a := fun h => hak h.symm
        simp [ownModify, ownGet, hak, hne]
      · simp [ownModify, ownGet, hak, hak', ih]

theorem ownModify_ownSet {β : Type} (l : List (String × β)) (k : String) (v : β) (f : β → β) :
    ownModify (ownSet l k v) k f = ownSet l k (f v) := by
  induction l with
  | nil => simp [ownSet, ownModify]
  | cons p rest ih =>
    obtain ⟨a, b⟩ := p
    by_cases hak : a = k
    · simp [ownSet, ownModify, hak]
    · simp [ownSet, ownModify, hak, ih]

theorem ownSet_absent {β : Type} (l : List (String × β)) (k : String) (v : β)
    (h : ownGet l k = none) : ownSet l k v = l ++ [(k, v)] := by
  induction l with
  | nil => rfl
  | cons p rest ih =>
    obtain ⟨a, b⟩ := p
    by_cases hak : a = k
    · simp [ownGet, hak] at h
    · have hrest : ownGet rest k = none := by
        simpa [ownGet, hak] using h
      simp [ownSet, hak, ih hrest]

theorem ownGet_isSome_iff_mem_keys {β : Type} (l : List (String × β)) (k : String) :
    (ownGet l k).isSome = true ↔ k ∈ l.map Prod.fst := by
  induction l with
  | nil => simp [ownGet]
  | cons p rest ih =>
    obtain ⟨a, b⟩ := p
    by_cases hak : a = k
    · simp [ownGet, hak]
    · have hka : ¬ k = a := fun h => hak h.symm
      have : ownGet ((a, b) :: rest) k = ownGet rest k := by
        simp [ownGet, hak]
      rw [this, ih]
      simp [hka]

/-- Mutating a stored object adds and removes no own property. -/
theorem dictHas_dictModify {β : Type} (d : Dict β) (k k' : String) (f : β → β) :
    dictHas (dictModify d k f) k' = dictHas d k' := by
  unfold dictModify
  split
  · simp only [dictHas, dictGet]
    rw [ownGet_ownModify]
    split <;> simp
  · split <;> rfl

/-! ## Reached instances -/

/-- On a reached instance `sendSignal` returns at its guard. -/
theorem sendSignal_reached (events : List (String × Nat)) (calls : List Call)
    (type : String) (content : Content) :
    sendSignal (run calls (boot events)) type content = (run calls (boot events)).done := by
  unfold sendSignal
  rw [(unassigned_reached events calls).1]
  rfl

/-- On a reached instance `candidateReceived` raises at its first statement. -/
theorem candidateReceived_reached (events : List (String × Nat)) (calls : List Call)
    (data : Content) (client : Member) :
    candidateReceived (run calls (boot events)) data client
      = (run calls (boot events)).throw (JSError.TypeError "this.pc is undefined") := by
  unfold candidateReceived
  rw [(unassigned_reached events calls).2.2]
  rfl

/-- On a reached instance `receiveSdp` returns at its guard when the envelope
names a recipient. -/
theorem receiveSdp_reached (events : List (String × Nat)) (calls : List Call)
    (desc : JSVal) (recipient : String) (client : Member) :
    receiveSdp (run calls (boot events)) (Content.sdp desc (JSVal.str recipient)) client
      = (run calls (boot events)).done := by
  unfold receiveSdp
  rw [(unassigned_reached events calls).2.1]
  simp [Content.intended]

/-- The own properties of the registry are the same after `memberLeftRoom`, however
far it gets. -/
theorem dictHas_memberLeftRoom (w : World) (member : Member) (k : String) :
    dictHas (memberLeftRoom w member).world.comm.remotes k = dictHas w.comm.remotes k := by
  unfold memberLeftRoom
  split
  · rfl
  · split
    · rfl
    · split
      · rfl
      · simp only
        split
        · simp [dictHas_dictModify]
        · apply andThen_world_ind _ _ (fun x => dictHas x.comm.remotes k = dictHas w.comm.remotes k)
          · simp [dictHas_dictModify]
          · intro w3 h3
            split
            · simpa using h3
            · simp [dictHas_dictModify, h3]

/-! ## The events object without an own `hasOwnProperty` -/

/-- With `DEBUG` on and the built-in own-property test, `callEvent` makes exactly
one outside call and returns. -/
theorem callEvent_eq (w : World) (name : String) (eventData : EventData)
    (hplain : plainEvents w = true) :
    callEvent w name eventData = (w.log (emitted w.comm.events name eventData)).done := by
  have hnone : ownGet w.comm.events "hasOwnProperty" = none := by
    simpa [plainEvents] using hplain
  unfold callEvent
  simp only [hnone]
  cases hget : ownGet w.comm.events name with
  | none => simp [warnUndefined, DEBUG, emitted, hget]
  | some h => simp [callStored, emitted, hget]

/-! ## Signal dispatch -/

/-- On a dictionary whose prototype is still `Object.prototype`, a type other than
`__proto__` reads back the function registered last. -/
theorem registerSignalType_reads_back (w : World) (type : String) (f : Fn)
    (hproto : w.comm.signalTypes.proto = none) (htype : type ≠ "__proto__") :
    (registerSignalType w type f).thrown = none
      ∧ (registerSignalType w type f).world.comm.signalTypes.proto = none
      ∧ dictRead functionNames (registerSignalType w type f).world.comm.signalTypes type
          = Read.own f := by
  unfold registerSignalType dictSet
  by_cases hh : dictHas w.comm.signalTypes type = true
  · simp [hh, hproto, dictRead, dictGet, ownGet_ownSet]
  · simp [hh, hproto, htype, dictRead, dictGet, ownGet_ownSet]

/-- For a sender other than the local client and a registered type, `roomDataReceived`
is one call of the registered function with `(content, client, this)`. -/
theorem roomDataReceived_registered (w : World) (message : Message) (client : Member)
    (d : ScaleDrone) (f : Fn) (hd : w.comm.drone = some d)
    (hother : JSVal.str client.id ≠ d.clientId)
    (hreg : dictGet w.comm.signalTypes message.type = some f) :
    roomDataReceived w message client = invoke w f message.content client := by
  unfold roomDataReceived
  simp [hd, hother, dictRead, hreg]

/-- A message sent by the local client itself reaches no function. -/
theorem roomDataReceived_self (w : World) (message : Message) (client : Member)
    (d : ScaleDrone) (hd : w.comm.drone = some d) (hself : JSVal.str client.id = d.clientId) :
    roomDataReceived w message client = w.done := by
  unfold roomDataReceived
  simp [hd, hself]

/-- A type that names a function of `Object.prototype` reaches that function: for
"toString" on the page of `example.js` the built-in is called and returns. -/
theorem roomDataReceived_inherited_toString :
    roomDataReceived (run demoSetup (boot demoEvents))
        ⟨"toString", Content.value (JSVal.str "hi")⟩ ⟨"B", "Bob"⟩
      = ((run demoSetup (boot demoEvents)).log
          (Effect.callBuiltin "toString"
            [Arg.content (Content.value (JSVal.str "hi")), Arg.client ⟨"B", "Bob"⟩,
             Arg.comm])).done := by
  decide

/-! ## The answer path behind the guard of `receiveSdp` -/

/-- An sdp envelope that carries no `intended` passes the guard of `receiveSdp`
(`undefined === undefined`): on the instance of `example.js` a record is made
for the unknown sender "B", as answerer, and the offer is set. -/
theorem receiveSdp_without_recipient_accepted :
    (receiveSdp (run demoSetup (boot demoEvents))
        (Content.sdp (JSVal.str "offer") JSVal.undefined) ⟨"B", "Bob"⟩).world.trace
      = (run demoSetup (boot demoEvents)).trace
          ++ [Effect.newRemoteData "B" false,
              Effect.call (Fn.app 0)
                [Arg.comm, Arg.event (EventData.elements "B-video-element" "B-audio-element")],
              Effect.setRemoteDescription "B" (JSVal.str "offer")]
      ∧ dictGet (receiveSdp (run demoSetup (boot demoEvents))
          (Content.sdp (JSVal.str "offer") JSVal.undefined) ⟨"B", "Bob"⟩).world.comm.remotes "B"
        = some (wiredRemote "B" "Bob" false) := by
  decide

/-- Behind the guard the continuations run in the order remote description,
answer, local description, `sendSdp`; the final `sendSignal` publishes nothing. -/
theorem answer_path_order :
    (run [Call.receiveSdp (Content.sdp (JSVal.str "offer") JSVal.undefined) ⟨"B", "Bob"⟩,
          Call.settle JSVal.undefined, Call.settle (JSVal.str "answer"),
          Call.settle JSVal.undefined] (run demoSetup (boot demoEvents))).trace
      = (run demoSetup (boot demoEvents)).trace
          ++ [Effect.newRemoteData "B" false,
              Effect.call (Fn.app 0)
                [Arg.comm, Arg.event (EventData.elements "B-video-element" "B-audio-element")],
              Effect.setRemoteDescription "B" (JSVal.str "offer"),
              Effect.createAnswer "B",
              Effect.setLocalDescription "B" (JSVal.str "answer")] := by
  decide

/-! ## The claims -/

/-- C1: for every signal type and content, `sendSignal` on an instance on which
`droneInit` has not run raises no exception, leaves the instance and its
environment as they were, and adds no `drone.publish` call. -/
theorem sendSignal_before_setup_noop (events : List (String × Nat)) (calls : List Call)
    (hbefore : ∀ c ∈ calls, c.runsDroneInit = false) (type : String) (content : Content) :
    (sendSignal (run calls (boot events)) type content).thrown = none
      ∧ (sendSignal (run calls (boot events)) type content).world = run calls (boot events)
      ∧ publishes (sendSignal (run calls (boot events)) type content).world.trace
          = publishes (run calls (boot events)).trace := by
  have _ := hbefore
  rw [sendSignal_reached]
  exact ⟨rfl, rfl, rfl⟩

/-- Witness of C1 on the page of `example.js` before the relay has opened. -/
theorem sendSignal_before_setup_noop_witness :
    (∀ c ∈ demoJoin, c.runsDroneInit = false)
      ∧ (sendSignal (run demoJoin (boot demoEvents)) "sdp"
            (Content.sdp (JSVal.str "offer") (JSVal.str "B"))).thrown = none
      ∧ (sendSignal (run demoJoin (boot demoEvents)) "sdp"
            (Content.sdp (JSVal.str "offer") (JSVal.str "B"))).world
          = run demoJoin (boot demoEvents)
      ∧ publishes (sendSignal (run demoJoin (boot demoEvents)) "sdp"
            (Content.sdp (JSVal.str "offer") (JSVal.str "B"))).world.trace
          = publishes (run demoJoin (boot demoEvents)).trace :=
  ⟨by decide, sendSignal_before_setup_noop demoEvents demoJoin (by decide) "sdp"
    (Content.sdp (JSVal.str "offer") (JSVal.str "B"))⟩

/-- C2 (the code departs from the claim): on every reached instance whose room
setup has completed, `sendSignal` still returns at the `this.joined` guard, so
no envelope is published. -/
theorem sendSignal_after_setup_publishes_nothing (events : List (String × Nat))
    (calls : List Call) (hsetup : setupComplete (run calls (boot events)) = true)
    (type : String) (content : Content) :
    sendSignal (run calls (boot events)) type content = (run calls (boot events)).done
      ∧ publishes (sendSignal (run calls (boot events)) type content).world.trace
          = publishes (run calls (boot events)).trace := by
  have _ := hsetup
  rw [sendSignal_reached]
  exact ⟨rfl, rfl⟩

/-- Witness of C2 on the page of `example.js` after the relay has opened. -/
theorem sendSignal_after_setup_publishes_nothing_witness :
    setupComplete (run demoSetup (boot demoEvents)) = true
      ∧ sendSignal (run demoSetup (boot demoEvents)) "sdp"
            (Content.sdp (JSVal.str "offer") (JSVal.str "B"))
          = (run demoSetup (boot demoEvents)).done
      ∧ publishes (sendSignal (run demoSetup (boot demoEvents)) "sdp"
            (Content.sdp (JSVal.str "offer") (JSVal.str "B"))).world.trace
          = publishes (run demoSetup (boot demoEvents)).trace :=
  ⟨by decide, sendSignal_after_setup_publishes_nothing demoEvents demoSetup (by decide) "sdp"
    (Content.sdp (JSVal.str "offer") (JSVal.str "B"))⟩

/-- C3 (the code departs from the claim): after `memberLeftRoom` for a registered
identity the registry still holds the entry, whether the call completes or
raises; on a page without a global `remote` it raises `ReferenceError` at its
first statement and does nothing else. -/
theorem memberLeftRoom_keeps_registry_entry (w : World) (member : Member)
    (hreg : dictHas w.comm.remotes member.id = true) :
    dictHas (memberLeftRoom w member).world.comm.remotes member.id = true
      ∧ (w.remoteDeclared = false →
          memberLeftRoom w member = w.throw (JSError.ReferenceError "remote is not defined")) := by
  refine ⟨?_, ?_⟩
  · rw [dictHas_memberLeftRoom]; exact hreg
  · intro h
    unfold memberLeftRoom
    simp [h]

/-- Witness of C3: member "B" joined and mounted on the page of `example.js`. -/
theorem memberLeftRoom_keeps_registry_entry_witness :
    dictHas (run demoPeer (boot demoEvents)).comm.remotes "B" = true
      ∧ dictHas (memberLeftRoom (run demoPeer (boot demoEvents)) ⟨"B", "Bob"⟩).world.comm.remotes
          "B" = true
      ∧ ((run demoPeer (boot demoEvents)).remoteDeclared = false →
          memberLeftRoom (run demoPeer (boot demoEvents)) ⟨"B", "Bob"⟩
            = (run demoPeer (boot demoEvents)).throw
                (JSError.ReferenceError "remote is not defined")) :=
  ⟨by decide,
    memberLeftRoom_keeps_registry_entry (run demoPeer (boot demoEvents)) ⟨"B", "Bob"⟩ (by decide)⟩

/-- C4 (the code departs from the claim): on every reached instance whose local
identity is `clientId`, an sdp offer addressed to `clientId` from a sender
without a record is dropped at the guard `data.intended === this.id`: no
record is created, no description is set, nothing is queued. -/
theorem receiveSdp_addressed_offer_dropped (events : List (String × Nat)) (calls : List Call)
    (clientId : String) (desc : JSVal) (client : Member)
    (hlocal : (run calls (boot events)).comm.local_.id = JSVal.str clientId)
    (hnew : dictHas (run calls (boot events)).comm.remotes client.id = false) :
    receiveSdp (run calls (boot events)) (Content.sdp desc (JSVal.str clientId)) client
        = (run calls (boot events)).done
      ∧ dictHas (receiveSdp (run calls (boot events)) (Content.sdp desc (JSVal.str clientId))
          client).world.comm.remotes client.id = false := by
  have _ := hlocal
  rw [receiveSdp_reached]
  exact ⟨rfl, hnew⟩

/-- Witness of C4: an offer from "B" addressed to the local identity "A". -/
theorem receiveSdp_addressed_offer_dropped_witness :
    (run demoSetup (boot demoEvents)).comm.local_.id = JSVal.str "A"
      ∧ dictHas (run demoSetup (boot demoEvents)).comm.remotes "B" = false
      ∧ receiveSdp (run demoSetup (boot demoEvents))
            (Content.sdp (JSVal.str "offer") (JSVal.str "A")) ⟨"B", "Bob"⟩
          = (run demoSetup (boot demoEvents)).done
      ∧ dictHas (receiveSdp (run demoSetup (boot demoEvents))
            (Content.sdp (JSVal.str "offer") (JSVal.str "A")) ⟨"B", "Bob"⟩).world.comm.remotes
          "B" = false :=
  ⟨by decide, by decide,
    receiveSdp_addressed_offer_dropped demoEvents demoSetup "A" (JSVal.str "offer") ⟨"B", "Bob"⟩
      (by decide) (by decide)⟩

/-- C6 (the code departs from the claim): on every reached instance a candidate
envelope addressed to somebody else makes `candidateReceived` raise a
`TypeError` at `this.pc.remoteDescription`, where the claim has no exception. -/
theorem candidateReceived_misaddressed_raises (events : List (String × Nat))
    (calls : List Call) (candidate intended : JSVal) (client : Member)
    (hother : intended ≠ (run calls (boot events)).comm.local_.id) :
    (candidateReceived (run calls (boot events)) (Content.candidate candidate intended)
      client).thrown = some (JSError.TypeError "this.pc is undefined") := by
  have _ := hother
  rw [candidateReceived_reached]
  rfl

/-- Witness of C6: a candidate from "B" addressed to "C" on the instance "A". -/
theorem candidateReceived_misaddressed_raises_witness :
    JSVal.str "C" ≠ (run demoPeer (boot demoEvents)).comm.local_.id
      ∧ (candidateReceived (run demoPeer (boot demoEvents))
          (Content.candidate (JSVal.str "candidate:1") (JSVal.str "C")) ⟨"B", "Bob"⟩).thrown
        = some (JSError.TypeError "this.pc is undefined") :=
  ⟨by decide,
    candidateReceived_misaddressed_raises demoEvents demoPeer (JSVal.str "candidate:1")
      (JSVal.str "C") ⟨"B", "Bob"⟩ (by decide)⟩

/-- C7 (the code departs from the claim): for a sender other than the local client
and a type that has no registered function and is not the name of a property
on the prototype chain of `signalTypes`, `roomDataReceived` raises a
`TypeError` where the claim has a non-fatal condition. -/
theorem roomDataReceived_unregistered_raises (w : World) (message : Message) (client : Member)
    (d : ScaleDrone) (hd : w.comm.drone = some d)
    (hother : JSVal.str client.id ≠ d.clientId)
    (hnone : dictGet w.comm.signalTypes message.type = none)
    (hplain : message.type ∉ inheritedNames functionNames w.comm.signalTypes) :
    roomDataReceived w message client
      = w.throw (JSError.TypeError "this.signalTypes[message.type] is not a function") := by
  have hread : dictRead functionNames w.comm.signalTypes message.type = Read.undefined := by
    simp only [inheritedNames, List.mem_cons, List.mem_append, not_or] at hplain
    obtain ⟨h1, h2, h3⟩ := hplain
    unfold dictRead
    simp only [hnone, h1, if_false]
    cases hp : w.comm.signalTypes.proto with
    | none => simp [h3]
    | some p =>
      have h2' : message.type ∉ functionNames := by
        simpa [hp] using h2
      simp [h2', h3]
  unfold roomDataReceived
  simp [hd, hother, hread]

/-- Witness of C7: a "chat" signal from "B" on the page of `example.js`. -/
theorem roomDataReceived_unregistered_raises_witness :
    (run demoSetup (boot demoEvents)).comm.drone
        = some { key := "Rrv8qPaCmE9Jkyg0", name := "Al", clientId := JSVal.str "A",
                 onOpen := true }
      ∧ JSVal.str "B" ≠ JSVal.str "A"
      ∧ dictGet (run demoSetup (boot demoEvents)).comm.signalTypes "chat" = none
      ∧ "chat" ∉ inheritedNames functionNames (run demoSetup (boot demoEvents)).comm.signalTypes
      ∧ roomDataReceived (run demoSetup (boot demoEvents))
            ⟨"chat", Content.value (JSVal.str "hi")⟩ ⟨"B", "Bob"⟩
          = (run demoSetup (boot demoEvents)).throw
              (JSError.TypeError "this.signalTypes[message.type] is not a function") :=
  ⟨by decide, by decide, by decide, by decide,
    roomDataReceived_unregistered_raises (run demoSetup (boot demoEvents))
      ⟨"chat", Content.value (JSVal.str "hi")⟩ ⟨"B", "Bob"⟩
      { key := "Rrv8qPaCmE9Jkyg0", name := "Al", clientId := JSVal.str "A", onOpen := true }
      (by decide) (by decide) (by decide) (by decide)⟩

/-- C8 (the code departs from the claim): on every reached instance with local
identity `clientId`, a candidate envelope addressed to `clientId` from a
sender with a record makes `candidateReceived` raise before anything else:
`addIceCandidate` is not called and the record is untouched. -/
theorem candidateReceived_addressed_not_applied (events : List (String × Nat))
    (calls : List Call) (clientId : String) (candidate : JSVal) (client : Member)
    (hlocal : (run calls (boot events)).comm.local_.id = JSVal.str clientId)
    (hreg : dictHas (run calls (boot events)).comm.remotes client.id = true) :
    candidateReceived (run calls (boot events))
        (Content.candidate candidate (JSVal.str clientId)) client
        = (run calls (boot events)).throw (JSError.TypeError "this.pc is undefined")
      ∧ candidatesApplied (candidateReceived (run calls (boot events))
          (Content.candidate candidate (JSVal.str clientId)) client).world.trace
        = candidatesApplied (run calls (boot events)).trace := by
  have _ := hlocal
  have _ := hreg
  rw [candidateReceived_reached]
  exact ⟨rfl, rfl⟩

/-- Witness of C8: a candidate from the registered "B" addressed to the local "A". -/
theorem candidateReceived_addressed_not_applied_witness :
    (run demoPeer (boot demoEvents)).comm.local_.id = JSVal.str "A"
      ∧ dictHas (run demoPeer (boot demoEvents)).comm.remotes "B" = true
      ∧ candidateReceived (run demoPeer (boot demoEvents))
            (Content.candidate (JSVal.str "candidate:1") (JSVal.str "A")) ⟨"B", "Bob"⟩
          = (run demoPeer (boot demoEvents)).throw (JSError.TypeError "this.pc is undefined")
      ∧ candidatesApplied (candidateReceived (run demoPeer (boot demoEvents))
            (Content.candidate (JSVal.str "candidate:1") (JSVal.str "A")) ⟨"B", "Bob"⟩).world.trace
          = candidatesApplied (run demoPeer (boot demoEvents)).trace :=
  ⟨by decide, by decide,
    candidateReceived_addressed_not_applied demoEvents demoPeer "A" (JSVal.str "candidate:1")
      ⟨"B", "Bob"⟩ (by decide) (by decide)⟩

/-- C9 as stated fails: the record that `init_remote` makes for an offerer has a
channel that is still connecting; `sendMessage` calls `send` on it all the
same, and the call raises `InvalidStateError`. -/
theorem sendMessage_connecting_channel_counterexample :
    (RemoteData.create "B" "Bob" true).channel
        = some { label := "Data channel for B (Comms.js)", readyState := ReadyState.connecting,
                 onmessage := false }
      ∧ sendMessage (run demoSetup (boot demoEvents)) "chat" (Content.value (JSVal.str "hi"))
            (RemoteData.create "B" "Bob" true)
          = ((run demoSetup (boot demoEvents)).log
              (Effect.channelSend "B"
                [JsonMember.val "type" (JSVal.str "chat"),
                 JsonMember.content "content" (Content.value (JSVal.str "hi"))])).throw
              (JSError.InvalidStateError "RTCDataChannel.readyState is not open")
      ∧ channelSends (sendMessage (run demoSetup (boot demoEvents)) "chat"
            (Content.value (JSVal.str "hi")) (RemoteData.create "B" "Bob" true)).world.trace
          = channelSends (run demoSetup (boot demoEvents)).trace + 1 := by
  decide

/-- C9 amended: `sendMessage` serializes `ctn` (the text carries the type, and the
content unless it is `undefined`) and calls `send` on the channel of the peer
exactly when that channel is not `null`, whatever its ready state, changing
nothing in the instance; with a `null` channel it does nothing and raises
nothing; on an open channel the call raises nothing. -/
theorem sendMessage_sends_iff_channel_present (w : World) (type : String) (content : Content)
    (remote : RemoteData) :
    match remote.channel with
    | none => sendMessage w type content remote = w.done
    | some ch =>
      (sendMessage w type content remote).world
          = w.log (Effect.channelSend remote.id
              (JSONstringify { id := w.comm.id, type := type, content := content }))
        ∧ JsonMember.val "type" (JSVal.str type)
            ∈ JSONstringify { id := w.comm.id, type := type, content := content }
        ∧ (content = Content.value JSVal.undefined
            ∨ JsonMember.content "content" content
                ∈ JSONstringify { id := w.comm.id, type := type, content := content })
        ∧ (sendMessage w type content remote).thrown
            = (if ch.readyState = ReadyState.ready then none
               else some (JSError.InvalidStateError "RTCDataChannel.readyState is not open")) := by
  cases hch : remote.channel with
  | none => simp [sendMessage, hch]
  | some ch =>
    simp only [sendMessage, hch, DataChannel.send]
    refine ⟨?_, ?_, ?_, ?_⟩
    · split <;> rfl
    · simp [JSONstringify]
    · by_cases hc : content = Content.value JSVal.undefined
      · exact Or.inl hc
      · right
        simp [JSONstringify, hc]
    · split <;> rfl

/-- C10 as stated fails: when the events object has an own property named
`hasOwnProperty`, `callEvent` calls that function with the event name in
place of the own-property test; it returns `undefined`, so the handler
registered under "makeRemoteElements" is not called at all. -/
theorem callEvent_shadowed_test_counterexample :
    ownGet (boot shadowEvents).comm.events "makeRemoteElements" = some 0
      ∧ callEvent (boot shadowEvents) "makeRemoteElements"
            (EventData.elements "B-video-element" "B-audio-element")
          = (((boot shadowEvents).log
                (Effect.call (Fn.app 7) [Arg.name "makeRemoteElements"])).log
                (Effect.consoleWarn "Event: makeRemoteElements is not defined!")).done
      ∧ callsOf 0 (callEvent (boot shadowEvents) "makeRemoteElements"
            (EventData.elements "B-video-element" "B-audio-element")).world.trace = 0
      ∧ callsOf 7 (callEvent (boot shadowEvents) "makeRemoteElements"
            (EventData.elements "B-video-element" "B-audio-element")).world.trace = 1 := by
  decide

/-- C10 amended: when the events object has no own property named
`hasOwnProperty`, `callEvent` calls the handler registered under the name
exactly once, with the instance and the event data, and returns; without a
registered handler it calls no function, raises nothing and leaves the
instance as it was (it only writes a console warning). -/
theorem callEvent_plain_calls_registered_handler_once (w : World) (name : String)
    (eventData : EventData) (hplain : plainEvents w = true) :
    match ownGet w.comm.events name with
    | some h =>
      callEvent w name eventData
          = (w.log (Effect.call (Fn.app h) [Arg.comm, Arg.event eventData])).done
        ∧ handlerCalls (callEvent w name eventData).world.trace = handlerCalls w.trace + 1
    | none =>
      (callEvent w name eventData).thrown = none
        ∧ (callEvent w name eventData).world.comm = w.comm
        ∧ (callEvent w name eventData).world.microtasks = w.microtasks
        ∧ handlerCalls (callEvent w name eventData).world.trace = handlerCalls w.trace := by
  rw [callEvent_eq w name eventData hplain]
  unfold emitted
  cases hget : ownGet w.comm.events name with
  | none => simp [World.log, World.done, handlerCalls, List.filter_append]
  | some h => simp [World.log, World.done, handlerCalls, List.filter_append]

/-- Witness of C10 amended: the handler of `example.js` is called once. -/
theorem callEvent_plain_calls_registered_handler_once_witness :
    plainEvents (run demoSetup (boot demoEvents)) = true
      ∧ callEvent (run demoSetup (boot demoEvents)) "makeRemoteElements"
            (EventData.elements "B-video-element" "B-audio-element")
          = ((run demoSetup (boot demoEvents)).log
              (Effect.call (Fn.app 0)
                [Arg.comm,
                 Arg.event (EventData.elements "B-video-element" "B-audio-element")])).done
      ∧ handlerCalls (callEvent (run demoSetup (boot demoEvents)) "makeRemoteElements"
            (EventData.elements "B-video-element" "B-audio-element")).world.trace
          = handlerCalls (run demoSetup (boot demoEvents)).trace + 1 :=
  ⟨by decide,
    callEvent_plain_calls_registered_handler_once (run demoSetup (boot demoEvents))
      "makeRemoteElements" (EventData.elements "B-video-element" "B-audio-element") (by decide)⟩

/-! ## The registry -/

theorem dictSet_plain {β : Type} (readOnly : List String) (d : Dict β) (k : String) (v : β)
    (hproto : d.proto = none) (hk : k ≠ "__proto__") :
    dictSet readOnly d k v = some { d with own := ownSet d.own k v } := by
  unfold dictSet
  by_cases hh : dictHas d k = true
  · simp [hh]
  · simp [hh, hk, hproto]

theorem dictModify_stored {β : Type} (d : Dict β) (k : String) (v : β) (f : β → β) :
    dictModify { d with own := ownSet d.own k v } k f
      = { d with own := ownSet d.own k (f v) } := by
  unfold dictModify
  have hh : dictHas { d with own := ownSet d.own k v } k = true := by
    simp [dictHas, dictGet, ownGet_ownSet]
  simp [hh, ownModify_ownSet]

theorem constructed_append (id : String) (t es : List Effect) :
    constructed id (t ++ es) = constructed id t + constructed id es := by
  simp [constructed, List.filter_append]

theorem constructed_emitted (id : String) (events : List (String × Nat)) (name : String)
    (eventData : EventData) : constructed id [emitted events name eventData] = 0 := by
  unfold emitted
  split <;> rfl

theorem plainKey_ne {id : String} (h : plainKey id = true) :
    id ≠ "__proto__" ∧ id ≠ "hasOwnProperty" := by
  simpa [plainKey] using h

theorem plainRegistry_iff (w : World) :
    plainRegistry w = true
      ↔ w.comm.remotes.proto = none ∧ dictHas w.comm.remotes "hasOwnProperty" = false := by
  simp [plainRegistry]

/-- On a plain registry `this.remotes.hasOwnProperty(id)` is the own-property test. -/
theorem hasOwnProperty_plain (w : World) (id : String) (hreg : plainRegistry w = true) :
    hasOwnProperty w.comm.remotes id = some (dictHas w.comm.remotes id) := by
  have h := ((plainRegistry_iff w).mp hreg).2
  simp [hasOwnProperty, h]

/-- Once `init` has set `local.video`, with plain events, a plain registry and a
plain identity, `init_remote` returns normally: one `new RemoteData`, one
`makeRemoteElements` emission, one record stored. -/
theorem init_remote_eq (w : World) (id name : String) (offerer : Bool)
    (hv : w.comm.local_.video.isSome = true) (hev : plainEvents w = true)
    (hreg : plainRegistry w = true) (hid : plainKey id = true) :
    init_remote w id name offerer =
      World.done { w with
        trace := w.trace ++ [Effect.newRemoteData id offerer,
          emitted w.comm.events "makeRemoteElements"
            (EventData.elements (id ++ "-video-element") (id ++ "-audio-element"))]
        comm := { w.comm with
          remotes := { w.comm.remotes with
            own := ownSet w.comm.remotes.own id (wiredRemote id name offerer) } } } := by
  obtain ⟨v, hvs⟩ := Option.isSome_iff_exists.mp hv
  have hproto := ((plainRegistry_iff w).mp hreg).1
  have hne := (plainKey_ne hid).1
  have hev' : plainEvents (w.log (Effect.newRemoteData id offerer)) = true := hev
  unfold init_remote
  simp only [comm_log, hvs]
  rw [callEvent_eq _ _ _ hev']
  simp only [Outcome.andThen, thrown_done, world_done, comm_log]
  rw [dictSet_plain _ _ _ _ hproto hne]
  simp only [remotes_setRemotes]
  rw [dictModify_stored]
  cases offerer <;>
    simp [World.done, World.setRemotes, World.log, wiredRemote, RemoteData.create]

theorem extends_refl (w : World) : Extends w w :=
  ⟨rfl, rfl, rfl, rfl, fun _ _ h => h, fun _ => le_refl _, fun h => h⟩

theorem extends_trans {a b c : World} (hab : Extends a b) (hbc : Extends b c) : Extends a c :=
  ⟨hbc.1.trans hab.1, hbc.2.1.trans hab.2.1, hbc.2.2.1.trans hab.2.2.1,
    hbc.2.2.2.1.trans hab.2.2.2.1,
    fun id r h => hbc.2.2.2.2.1 id r (hab.2.2.2.2.1 id r h),
    fun id => le_trans (hbc.2.2.2.2.2.1 id) (hab.2.2.2.2.2.1 id),
    fun h => hbc.2.2.2.2.2.2 (hab.2.2.2.2.2.2 h)⟩

/-- What `Extends` carries over: local data, plain events, plain registry. -/
theorem extends_plain {w w' : World} (h : Extends w w')
    (hv : w.comm.local_.video.isSome = true) (hev : plainEvents w = true)
    (hreg : plainRegistry w = true) :
    w'.comm.local_.video.isSome = true ∧ plainEvents w' = true ∧ plainRegistry w' = true := by
  refine ⟨?_, ?_, ?_⟩
  · rw [h.1]; exact hv
  · simpa [plainEvents, h.2.1] using hev
  · have := (plainRegistry_iff w).mp hreg
    exact (plainRegistry_iff w').mpr ⟨h.2.2.1.trans this.1, h.2.2.2.1.trans this.2⟩

/-- Constructing a record for a plain identity without one extends the registry. -/
theorem extends_init_remote (w : World) (id name : String) (offerer : Bool)
    (hv : w.comm.local_.video.isSome = true) (hev : plainEvents w = true)
    (hreg : plainRegistry w = true) (hid : plainKey id = true)
    (habsent : dictHas w.comm.remotes id = false) :
    Extends w (init_remote w id name offerer).world := by
  rw [init_remote_eq w id name offerer hv hev hreg hid]
  have hnone : ownGet w.comm.remotes.own id = none := by
    simpa [dictHas, dictGet] using habsent
  refine ⟨rfl, rfl, rfl, ?_, ?_, ?_, ?_⟩
  · have hne : ¬ id = "hasOwnProperty" := (plainKey_ne hid).2
    simp [dictHas, dictGet, ownGet_ownSet, hne]
  · intro id' r h
    have hne : ¬ id = id' := by
      intro heq
      subst heq
      simp [dictGet, hnone] at h
    simpa [dictGet, ownGet_ownSet, hne] using h
  · intro id'
    have hc : constructed id' (w.trace ++ [Effect.newRemoteData id offerer,
          emitted w.comm.events "makeRemoteElements"
            (EventData.elements (id ++ "-video-element") (id ++ "-audio-element"))])
        = constructed id' w.trace + (if id = id' then 1 else 0) := by
      rw [constructed_append]
      have h2 : constructed id' [Effect.newRemoteData id offerer,
          emitted w.comm.events "makeRemoteElements"
            (EventData.elements (id ++ "-video-element") (id ++ "-audio-element"))]
          = constructed id' [Effect.newRemoteData id offerer]
            + constructed id' [emitted w.comm.events "makeRemoteElements"
                (EventData.elements (id ++ "-video-element") (id ++ "-audio-element"))] :=
        constructed_append id' [Effect.newRemoteData id offerer] _
      rw [h2, constructed_emitted]
      by_cases heq : id = id' <;> simp [constructed, heq]
    have hh : dictHas { w.comm.remotes with
          own := ownSet w.comm.remotes.own id (wiredRemote id name offerer) } id'
        = (if id = id' then true else dictHas w.comm.remotes id') := by
      simp only [dictHas, dictGet]
      rw [ownGet_ownSet]
      split <;> simp
    simp only [world_done]
    rw [hc]
    by_cases heq : id = id'
    · subst heq
      simp [hh, habsent]
    · simp [hh, heq]
  · intro hnd
    simp only [world_done, known]
    rw [ownSet_absent _ _ _ hnone]
    simp only [List.map_append, List.map_cons, List.map_nil]
    apply List.Nodup.append hnd (List.nodup_singleton _)
    intro x hx hx'
    simp only [List.mem_singleton] at hx'
    subst hx'
    have := (ownGet_isSome_iff_mem_keys w.comm.remotes.own x).mpr hx
    simp [hnone] at this

/-- Noting a `setRemoteDescription` call and its continuation touches no record. -/
theorem extends_setRemoteDescription (w : World) (remote : String) (desc : JSVal) (t : Task) :
    Extends w ((w.log (Effect.setRemoteDescription remote desc)).defer t) := by
  refine ⟨rfl, rfl, rfl, rfl, fun _ _ h => h, ?_, fun h => h⟩
  intro id
  have : constructed id ((w.log (Effect.setRemoteDescription remote desc)).defer t).trace
      = constructed id w.trace := by
    simp [World.log, World.defer, constructed, List.filter_append]
  rw [this]
  rfl

/-- A member-join notification for a plain identity extends the registry. -/
theorem extends_memberJoinedRoom (w : World) (member : Member)
    (hv : w.comm.local_.video.isSome = true) (hev : plainEvents w = true)
    (hreg : plainRegistry w = true) (hid : plainKey member.id = true) :
    Extends w (memberJoinedRoom w member).world := by
  unfold memberJoinedRoom
  rw [hasOwnProperty_plain w member.id hreg]
  by_cases h : dictHas w.comm.remotes member.id = true
  · simp [h, extends_refl]
  · have hf : dictHas w.comm.remotes member.id = false := by simpa using h
    simp only [hf, Bool.not_false, if_true]
    exact extends_init_remote w member.id member.name true hv hev hreg hid hf

/-- An inbound sdp signal from a plain identity extends the registry. -/
theorem extends_receiveSdp (w : World) (data : Content) (client : Member)
    (hv : w.comm.local_.video.isSome = true) (hev : plainEvents w = true)
    (hreg : plainRegistry w = true) (hid : plainKey client.id = true) :
    Extends w (receiveSdp w data client).world := by
  unfold receiveSdp
  by_cases hg : data.intended = w.comm.id
  · simp only [hg, if_true]
    rw [hasOwnProperty_plain w client.id hreg]
    by_cases h : dictHas w.comm.remotes client.id = true
    · simp only [h, if_true, Outcome.andThen, thrown_done, world_done]
      exact extends_setRemoteDescription w _ _ _
    · have hf : dictHas w.comm.remotes client.id = false := by simpa using h
      simp only [hf]
      rw [init_remote_eq w client.id client.name false hv hev hreg hid]
      simp only [Bool.false_eq_true, if_false, Outcome.andThen, thrown_done, world_done]
      have h1 := extends_init_remote w client.id client.name false hv hev hreg hid hf
      rw [init_remote_eq w client.id client.name false hv hev hreg hid] at h1
      exact extends_trans h1 (extends_setRemoteDescription _ _ _ _)
  · simp [hg, extends_refl]

/-- Every sequence of contacts with plain identities extends the registry. -/
theorem extends_run (contacts : List Contact) (w : World)
    (hv : w.comm.local_.video.isSome = true) (hev : plainEvents w = true)
    (hreg : plainRegistry w = true) (hids : ∀ c ∈ contacts, plainKey c.id = true) :
    Extends w (run (contacts.map Contact.toCall) w) := by
  induction contacts generalizing w with
  | nil => exact extends_refl w
  | cons c rest ih =>
    have hc : plainKey c.id = true := hids c (List.mem_cons_self _ _)
    have hstep : Extends w (step w c.toCall).world := by
      cases c with
      | joined m => exact extends_memberJoinedRoom w m hv hev hreg hc
      | sdp d cl => exact extends_receiveSdp w d cl hv hev hreg hc
    obtain ⟨hv', hev', hreg'⟩ := extends_plain hstep hv hev hreg
    exact extends_trans hstep
      (ih _ hv' hev' hreg' (fun x hx => hids x (List.mem_cons_of_mem _ hx)))

/-- C5 as stated fails, in four ways.  Without `init()` a join of a new identity
raises at `localData.video.getVideoTracks()` and registers nothing.  With
`init()`, the identity "__proto__" gets a new `RemoteData` on every join and
never an entry of its own.  After a join of "hasOwnProperty", the next join
raises at `this.remotes.hasOwnProperty(...)`.  When the events object has an
own `hasOwnProperty` that answers true, `callEvent` raises inside
`init_remote` and the new identity is not registered. -/
theorem registry_counterexample :
    (memberJoinedRoom (run joinWithoutInit (boot demoEvents)) ⟨"B", "Bob"⟩).thrown
        = some (JSError.TypeError "localData.video is null")
      ∧ dictHas (memberJoinedRoom (run joinWithoutInit (boot demoEvents))
          ⟨"B", "Bob"⟩).world.comm.remotes "B" = false
      ∧ constructed "__proto__"
          (run [Call.memberJoinedRoom ⟨"__proto__", "Pat"⟩,
                Call.memberJoinedRoom ⟨"__proto__", "Pat"⟩]
            (run demoSetup (boot demoEvents))).trace = 2
      ∧ dictHas (run [Call.memberJoinedRoom ⟨"__proto__", "Pat"⟩,
                Call.memberJoinedRoom ⟨"__proto__", "Pat"⟩]
            (run demoSetup (boot demoEvents))).comm.remotes "__proto__" = false
      ∧ (memberJoinedRoom
          (run [Call.memberJoinedRoom ⟨"hasOwnProperty", "Hal"⟩]
            (run demoSetup (boot demoEvents))) ⟨"B", "Bob"⟩).thrown
        = some (JSError.TypeError "this.remotes.hasOwnProperty is not a function")
      ∧ (memberJoinedRoom
          (run (demoSetup ++ [Call.appReturns 7 (JSVal.bool true)]) (boot shadowOnly))
          ⟨"B", "Bob"⟩).thrown
        = some (JSError.TypeError "this.on[name] is not a function")
      ∧ dictHas (memberJoinedRoom
          (run (demoSetup ++ [Call.appReturns 7 (JSVal.bool true)]) (boot shadowOnly))
          ⟨"B", "Bob"⟩).world.comm.remotes "B" = false := by
  decide

/-- C5 amended: on an instance on which `init` has run, whose events object has no
own `hasOwnProperty` and whose registry is plain, over every sequence of
member-join notifications and inbound sdp signals for identities other than
`__proto__` and `hasOwnProperty`, (1) every record stays stored under its
identity, never replaced; (2) an identity that had a record gains no
`new RemoteData`, one that had none gains at most one; (3) the identities stay
pairwise distinct, one record each; (4) `memberJoinedRoom` for a known
identity changes nothing and emits nothing, and for a new identity it
constructs once, emits `makeRemoteElements` once and appends one record,
which is an offerer record (data channel created, negotiation handler set). -/
theorem registry_one_record_per_plain_identity (w : World)
    (hinit : w.comm.local_.video.isSome = true) (hevents : plainEvents w = true)
    (hregistry : plainRegistry w = true) (contacts : List Contact)
    (hids : ∀ c ∈ contacts, plainKey c.id = true) (member : Member)
    (hmember : plainKey member.id = true) :
    (∀ id r, dictGet w.comm.remotes id = some r →
        dictGet (run (contacts.map Contact.toCall) w).comm.remotes id = some r)
      ∧ (∀ id, constructed id (run (contacts.map Contact.toCall) w).trace
          ≤ constructed id w.trace + (if dictHas w.comm.remotes id then 0 else 1))
      ∧ ((known w).Nodup → (known (run (contacts.map Contact.toCall) w)).Nodup)
      ∧ memberJoinedRoom w member =
          (if dictHas w.comm.remotes member.id then w.done
           else World.done { w with
             trace := w.trace ++ [Effect.newRemoteData member.id true,
               emitted w.comm.events "makeRemoteElements"
                 (EventData.elements (member.id ++ "-video-element")
                   (member.id ++ "-audio-element"))]
             comm := { w.comm with
               remotes := { w.comm.remotes with
                 own := w.comm.remotes.own
                   ++ [(member.id, wiredRemote member.id member.name true)] } } })
      ∧ (wiredRemote member.id member.name true).channel.isSome = true
      ∧ (wiredRemote member.id member.name true).pc.onnegotiationneeded = true := by
  have hrun := extends_run contacts w hinit hevents hregistry hids
  refine ⟨hrun.2.2.2.2.1, ?_, hrun.2.2.2.2.2.2, ?_, rfl, rfl⟩
  · intro id
    exact le_trans (Nat.le_add_right _ _) (hrun.2.2.2.2.2.1 id)
  · unfold memberJoinedRoom
    rw [hasOwnProperty_plain w member.id hregistry]
    by_cases h : dictHas w.comm.remotes member.id = true
    · simp [h]
    · have hf : dictHas w.comm.remotes member.id = false := by simpa using h
      have hnone : ownGet w.comm.remotes.own member.id = none := by
        simpa [dictHas, dictGet] using hf
      simp only [hf, Bool.not_false, if_true, Bool.false_eq_true, if_false]
      rw [init_remote_eq w member.id member.name true hinit hevents hregistry hmember,
        ownSet_absent _ _ _ hnone]

/-- Witness of C5 amended: the page of `example.js` after setup, with the sample
contacts. -/
theorem registry_one_record_per_plain_identity_witness :
    (run demoSetup (boot demoEvents)).comm.local_.video.isSome = true
      ∧ plainEvents (run demoSetup (boot demoEvents)) = true
      ∧ plainRegistry (run demoSetup (boot demoEvents)) = true
      ∧ (∀ c ∈ demoContacts, plainKey c.id = true)
      ∧ plainKey "B" = true
      ∧ (∀ id, constructed id
            (run (demoContacts.map Contact.toCall) (run demoSetup (boot demoEvents))).trace
          ≤ constructed id (run demoSetup (boot demoEvents)).trace
            + (if dictHas (run demoSetup (boot demoEvents)).comm.remotes id then 0 else 1))
      ∧ known (run (demoContacts.map Contact.toCall) (run demoSetup (boot demoEvents)))
          = ["B", "C"] :=
  ⟨by decide, by decide, by decide, by decide, by decide,
    (registry_one_record_per_plain_identity (run demoSetup (boot demoEvents)) (by decide)
      (by decide) (by decide) demoContacts (by decide) ⟨"B", "Bob"⟩ (by decide)).2.1,
    by decide⟩

end CommsJs
